import Mathlib

/-!
Verification of the spotify client library (personalization endpoints and
audio analysis) against its specification.  The Go source is shallowly
embedded: JSON values become an inductive `JVal`, the data-transfer
structs become Lean structures with their JSON tag tables made explicit,
and each exported operation becomes a pure function from a `Client`
(whose HTTP Get is modelled as a function from URL to transport-error-or
response) to a run result carrying the observable event trace, the
decoded result and the returned error.
-/

/-- JSON values, as decoded by the HTTP layer.  Numbers are modelled as
rationals (JSON numbers are decimal literals; no arithmetic is performed
on them). -/
inductive JVal where
  | null : JVal
  | str : String → JVal
  | num : Rat → JVal
  | boolean : Bool → JVal
  | arr : List JVal → JVal
  | obj : List (String × JVal) → JVal

/-- Look up a key in a decoded JSON object (association list). -/
def jlookup (fs : List (String × JVal)) (k : String) : Option JVal :=
  match fs with
  | [] => none
  | (k2, v) :: rest => if k2 = k then some v else jlookup rest k

/-- Decode a Go `string` field: a missing key or JSON null leaves the
zero value "", a JSON string is taken verbatim, anything else is an
unmarshalling error. -/
def decStr : Option JVal → Except String String
  | none => .ok ""
  | some .null => .ok ""
  | some (.str s) => .ok s
  | some _ => .error "json: cannot unmarshal value into Go value of type string"

/-- Decode a Go `int` field: missing or null gives 0, an integral JSON
number its value, anything else an unmarshalling error. -/
def decInt : Option JVal → Except String Int
  | none => .ok 0
  | some .null => .ok 0
  | some (.num q) => if q.den = 1 then .ok q.num
      else .error "json: cannot unmarshal number into Go value of type int"
  | some _ => .error "json: cannot unmarshal value into Go value of type int"

/-- Decode a Go `float64` field: missing or null gives 0, a JSON number
its value, anything else an unmarshalling error. -/
def decFloat : Option JVal → Except String Rat
  | none => .ok 0
  | some .null => .ok 0
  | some (.num q) => .ok q
  | some _ => .error "json: cannot unmarshal value into Go value of type float64"

/-- Decode a Go `bool` field. -/
def decBool : Option JVal → Except String Bool
  | none => .ok false
  | some .null => .ok false
  | some (.boolean b) => .ok b
  | some _ => .error "json: cannot unmarshal value into Go value of type bool"

/-- Decode a Go `map[string]string` field: missing or null gives the nil
map, an object whose values are all strings gives its entries. -/
def decStrMap : Option JVal → Except String (List (String × String))
  | none => .ok []
  | some .null => .ok []
  | some (.obj fs) =>
      fs.mapM (fun kv =>
        match kv.2 with
        | .str s => .ok (kv.1, s)
        | _ => .error "json: cannot unmarshal value into Go value of type string")
  | some _ => .error "json: cannot unmarshal value into Go value of type map[string]string"

/-- Decode a Go slice field with the given element decoder: missing or
null gives the nil slice, an array decodes elementwise. -/
def decArrWith (d : JVal → Except String α) : Option JVal → Except String (List α)
  | none => .ok []
  | some .null => .ok []
  | some (.arr xs) => xs.mapM d
  | some _ => .error "json: cannot unmarshal value into Go slice"

/-- Decode a Go `[]float64` field. -/
def decFloatArr : Option JVal → Except String (List Rat) :=
  decArrWith (fun v => decFloat (some v))

/-- Decode a Go `[]string` field. -/
def decStrArr : Option JVal → Except String (List String) :=
  decArrWith (fun v => decStr (some v))

/-- Modelled from the spec: `ID` (defined elsewhere in the repository) is
the external service's ID type, a string carried verbatim. -/
abbrev ID := String

/-- Modelled from the spec: `URI` (defined elsewhere in the repository) is
the external service's URI type, a string carried verbatim. -/
abbrev URI := String

/-- Modelled from the spec: `ID.String()` returns the underlying string
verbatim. -/
def idString (i : ID) : String := i

/-- Modelled from the spec: `Image` (defined elsewhere in the repository)
is a passive record mirroring an upstream JSON object; we carry the raw
decoded object. -/
structure Image where
  raw : JVal := .null

/-- Modelled from the spec: decoding an `Image`, like any Go struct,
accepts a JSON object (or null, leaving the zero value). -/
def decodeImage : JVal → Except String Image
  | .obj fs => .ok ⟨.obj fs⟩
  | .null => .ok {}
  | _ => .error "json: cannot unmarshal value into Go value of type spotify.Image"

/-- Modelled from the spec: `Followers` (defined elsewhere in the
repository) is a passive record mirroring an upstream JSON object. -/
structure Followers where
  raw : JVal := .null

/-- Modelled from the spec: decoding a `Followers` accepts a JSON object
(or null, leaving the zero value). -/
def decodeFollowers : JVal → Except String Followers
  | .obj fs => .ok ⟨.obj fs⟩
  | .null => .ok {}
  | _ => .error "json: cannot unmarshal value into Go value of type spotify.Followers"

/-- Modelled from the spec: `SimpleTrack` (defined elsewhere in the
repository) is a passive record mirroring an upstream JSON object. -/
structure SimpleTrack where
  raw : JVal := .null

/-- Modelled from the spec: decoding a `SimpleTrack` accepts a JSON
object (or null, leaving the zero value). -/
def decodeSimpleTrack : JVal → Except String SimpleTrack
  | .obj fs => .ok ⟨.obj fs⟩
  | .null => .ok {}
  | _ => .error "json: cannot unmarshal value into Go value of type spotify.SimpleTrack"

/-- TrackContext contains metadata on the context in which the track was
listened to (struct `TrackContext` of personalization.go). -/
structure TrackContext where
  «Type» : String := ""
  Endpoint : String := ""
  ExternalURLS : List (String × String) := []
  URI : URI := ""

/-- JSON keys of `TrackContext`, from its field tags. -/
def trackContextKey : String → String
  | "Type" => "type"
  | "Endpoint" => "href"
  | "ExternalURLS" => "external_urls"
  | "URI" => "uri"
  | _ => ""

/-- Decode a `TrackContext` per its JSON tags. -/
def decodeTrackContext : JVal → Except String TrackContext
  | .obj fs => do
      let t ← decStr (jlookup fs "type")
      let e ← decStr (jlookup fs "href")
      let x ← decStrMap (jlookup fs "external_urls")
      let u ← decStr (jlookup fs "uri")
      .ok ⟨t, e, x, u⟩
  | .null => .ok {}
  | _ => .error "json: cannot unmarshal value into Go value of type spotify.TrackContext"

/-- HistoryItem contains the track and its metadata (struct
`HistoryItem` of personalization.go). -/
structure HistoryItem where
  Track : SimpleTrack := {}
  PlayedAt : String := ""
  Context : TrackContext := {}

/-- JSON keys of `HistoryItem`, from its field tags. -/
def historyItemKey : String → String
  | "Track" => "track"
  | "PlayedAt" => "played_at"
  | "Context" => "context"
  | _ => ""

/-- Decode a `HistoryItem` per its JSON tags. -/
def decodeHistoryItem : JVal → Except String HistoryItem
  | .obj fs => do
      let t ← match jlookup fs "track" with
        | none => .ok ({} : SimpleTrack)
        | some v => decodeSimpleTrack v
      let p ← decStr (jlookup fs "played_at")
      let c ← match jlookup fs "context" with
        | none => .ok ({} : TrackContext)
        | some v => decodeTrackContext v
      .ok ⟨t, p, c⟩
  | .null => .ok {}
  | _ => .error "json: cannot unmarshal value into Go value of type spotify.HistoryItem"

/-- PlayHistory provides a user's play history (struct `PlayHistory` of
personalization.go). -/
structure PlayHistory where
  Items : List HistoryItem := []
  Next : String := ""
  Limit : Int := 0
  Endpoint : String := ""

/-- JSON keys of `PlayHistory`, from its field tags. -/
def playHistoryKey : String → String
  | "Items" => "items"
  | "Next" => "next"
  | "Limit" => "limit"
  | "Endpoint" => "href"
  | _ => ""

/-- Decode a `PlayHistory` per its JSON tags. -/
def decodePlayHistory : JVal → Except String PlayHistory
  | .obj fs => do
      let i ← decArrWith decodeHistoryItem (jlookup fs "items")
      let n ← decStr (jlookup fs "next")
      let l ← decInt (jlookup fs "limit")
      let e ← decStr (jlookup fs "href")
      .ok ⟨i, n, l, e⟩
  | .null => .ok {}
  | _ => .error "json: cannot unmarshal value into Go value of type spotify.PlayHistory"

/-- AlbumInfo contains album information and images for a particular
album (struct `AlbumInfo` of personalization.go). -/
structure AlbumInfo where
  AlbumType : String := ""
  ExternalURLs : List (String × String) := []
  Endpoint : String := ""
  ID : ID := ""
  Images : List Image := []
  Name : String := ""
  ItemType : String := ""
  URI : URI := ""

/-- JSON keys of `AlbumInfo`, from its field tags. -/
def albumInfoKey : String → String
  | "AlbumType" => "album_type"
  | "ExternalURLs" => "external_urls"
  | "Endpoint" => "href"
  | "ID" => "id"
  | "Images" => "images"
  | "Name" => "name"
  | "ItemType" => "type"
  | "URI" => "uri"
  | _ => ""

/-- Decode an `AlbumInfo` per its JSON tags. -/
def decodeAlbumInfo : JVal → Except String AlbumInfo
  | .obj fs => do
      let at2 ← decStr (jlookup fs "album_type")
      let xu ← decStrMap (jlookup fs "external_urls")
      let ep ← decStr (jlookup fs "href")
      let i ← decStr (jlookup fs "id")
      let im ← decArrWith decodeImage (jlookup fs "images")
      let n ← decStr (jlookup fs "name")
      let it ← decStr (jlookup fs "type")
      let u ← decStr (jlookup fs "uri")
      .ok ⟨at2, xu, ep, i, im, n, it, u⟩
  | .null => .ok {}
  | _ => .error "json: cannot unmarshal value into Go value of type spotify.AlbumInfo"

/-- ArtistInfo contains artist information and object metadata (struct
`ArtistInfo` of personalization.go). -/
structure ArtistInfo where
  ExternalURLs : List (String × String) := []
  Endpoint : String := ""
  ID : ID := ""
  Name : String := ""
  «Type» : String := ""
  URI : URI := ""

/-- JSON keys of `ArtistInfo`, from its field tags. -/
def artistInfoKey : String → String
  | "ExternalURLs" => "external_urls"
  | "Endpoint" => "href"
  | "ID" => "id"
  | "Name" => "name"
  | "Type" => "type"
  | "URI" => "uri"
  | _ => ""

/-- Decode an `ArtistInfo` per its JSON tags. -/
def decodeArtistInfo : JVal → Except String ArtistInfo
  | .obj fs => do
      let xu ← decStrMap (jlookup fs "external_urls")
      let ep ← decStr (jlookup fs "href")
      let i ← decStr (jlookup fs "id")
      let n ← decStr (jlookup fs "name")
      let t ← decStr (jlookup fs "type")
      let u ← decStr (jlookup fs "uri")
      .ok ⟨xu, ep, i, n, t, u⟩
  | .null => .ok {}
  | _ => .error "json: cannot unmarshal value into Go value of type spotify.ArtistInfo"

/-- TrackItem contains the album, artist, and other information for a
particular track (struct `TrackItem` of personalization.go).  Note the
`Type` field's JSON tag in the source is `track`. -/
structure TrackItem where
  Album : AlbumInfo := {}
  Artists : List ArtistInfo := []
  DiscNumber : Int := 0
  DurationMS : Int := 0
  Explicit : Bool := false
  ExternalIDs : List (String × String) := []
  ExternalURLs : List (String × String) := []
  Endpoint : URI := ""
  ID : ID := ""
  IsPlayable : Bool := false
  Name : String := ""
  Popularity : Int := 0
  PreviewURL : String := ""
  TrackNumber : Int := 0
  «Type» : String := ""
  URI : URI := ""

/-- JSON keys of `TrackItem`, from its field tags as written in the
source (the `Type` field is tagged `track` there). -/
def trackItemKey : String → String
  | "Album" => "album"
  | "Artists" => "artists"
  | "DiscNumber" => "disc_number"
  | "DurationMS" => "duration_ms"
  | "Explicit" => "explicit"
  | "ExternalIDs" => "external_ids"
  | "ExternalURLs" => "external_urls"
  | "Endpoint" => "href"
  | "ID" => "id"
  | "IsPlayable" => "is_playable"
  | "Name" => "name"
  | "Popularity" => "popularity"
  | "PreviewURL" => "preview_url"
  | "TrackNumber" => "track_number"
  | "Type" => "track"
  | "URI" => "uri"
  | _ => ""

/-- Decode a `TrackItem` per its JSON tags (each field is looked up at
the key its tag names; in particular the `Type` field is read from the
JSON key "track"). -/
def decodeTrackItem : JVal → Except String TrackItem
  | .obj fs => do
      let al ← match jlookup fs "album" with
        | none => .ok ({} : AlbumInfo)
        | some v => decodeAlbumInfo v
      let ar ← decArrWith decodeArtistInfo (jlookup fs "artists")
      let dn ← decInt (jlookup fs "disc_number")
      let dm ← decInt (jlookup fs "duration_ms")
      let ex ← decBool (jlookup fs "explicit")
      let xi ← decStrMap (jlookup fs "external_ids")
      let xu ← decStrMap (jlookup fs "external_urls")
      let ep ← decStr (jlookup fs "href")
      let i ← decStr (jlookup fs "id")
      let ip ← decBool (jlookup fs "is_playable")
      let n ← decStr (jlookup fs "name")
      let po ← decInt (jlookup fs "popularity")
      let pu ← decStr (jlookup fs "preview_url")
      let tn ← decInt (jlookup fs "track_number")
      let ty ← decStr (jlookup fs "track")
      let u ← decStr (jlookup fs "uri")
      .ok ⟨al, ar, dn, dm, ex, xi, xu, ep, i, ip, n, po, pu, tn, ty, u⟩
  | .null => .ok {}
  | _ => .error "json: cannot unmarshal value into Go value of type spotify.TrackItem"

/-- TopTracks contains both a list of tracks with their relevant data
and object metadata (struct `TopTracks` of personalization.go). -/
structure TopTracks where
  Items : List TrackItem := []
  Total : Int := 0
  Limit : Int := 0
  Offset : Int := 0
  Endpoint : String := ""
  Previous : String := ""
  Next : String := ""

/-- JSON keys of `TopTracks`, from its field tags. -/
def topTracksKey : String → String
  | "Items" => "items"
  | "Total" => "total"
  | "Limit" => "limit"
  | "Offset" => "offset"
  | "Endpoint" => "href"
  | "Previous" => "previous"
  | "Next" => "next"
  | _ => ""

/-- Decode a `TopTracks` per its JSON tags. -/
def decodeTopTracks : JVal → Except String TopTracks
  | .obj fs => do
      let i ← decArrWith decodeTrackItem (jlookup fs "items")
      let t ← decInt (jlookup fs "total")
      let l ← decInt (jlookup fs "limit")
      let o ← decInt (jlookup fs "offset")
      let e ← decStr (jlookup fs "href")
      let p ← decStr (jlookup fs "previous")
      let n ← decStr (jlookup fs "next")
      .ok ⟨i, t, l, o, e, p, n⟩
  | .null => .ok {}
  | _ => .error "json: cannot unmarshal value into Go value of type spotify.TopTracks"

/-- ArtistItem contains the genre, images, and other information for a
particular artist (struct `ArtistItem` of personalization.go). -/
structure ArtistItem where
  ExternalURLs : List (String × String) := []
  Followers : Followers := {}
  Genres : List String := []
  Endpoint : String := ""
  ID : ID := ""
  Images : List Image := []
  Name : String := ""
  Popularity : Int := 0
  «Type» : String := ""
  URI : URI := ""

/-- JSON keys of `ArtistItem`, from its field tags. -/
def artistItemKey : String → String
  | "ExternalURLs" => "external_urls"
  | "Followers" => "followers"
  | "Genres" => "genres"
  | "Endpoint" => "href"
  | "ID" => "id"
  | "Images" => "images"
  | "Name" => "name"
  | "Popularity" => "popularity"
  | "Type" => "type"
  | "URI" => "uri"
  | _ => ""

/-- Decode an `ArtistItem` per its JSON tags. -/
def decodeArtistItem : JVal → Except String ArtistItem
  | .obj fs => do
      let xu ← decStrMap (jlookup fs "external_urls")
      let fo ← match jlookup fs "followers" with
        | none => .ok ({} : Followers)
        | some v => decodeFollowers v
      let g ← decStrArr (jlookup fs "genres")
      let ep ← decStr (jlookup fs "href")
      let i ← decStr (jlookup fs "id")
      let im ← decArrWith decodeImage (jlookup fs "images")
      let n ← decStr (jlookup fs "name")
      let po ← decInt (jlookup fs "popularity")
      let t ← decStr (jlookup fs "type")
      let u ← decStr (jlookup fs "uri")
      .ok ⟨xu, fo, g, ep, i, im, n, po, t, u⟩
  | .null => .ok {}
  | _ => .error "json: cannot unmarshal value into Go value of type spotify.ArtistItem"

/-- TopArtists contains both a list of artists with their relevant data
and paging information (struct `TopArtists` of personalization.go). -/
structure TopArtists where
  Items : List ArtistItem := []
  Total : Int := 0
  Limit : Int := 0
  Offset : Int := 0
  Endpoint : String := ""
  Previous : String := ""
  Next : String := ""

/-- JSON keys of `TopArtists`, from its field tags. -/
def topArtistsKey : String → String
  | "Items" => "items"
  | "Total" => "total"
  | "Limit" => "limit"
  | "Offset" => "offset"
  | "Endpoint" => "href"
  | "Previous" => "previous"
  | "Next" => "next"
  | _ => ""

/-- Decode a `TopArtists` per its JSON tags. -/
def decodeTopArtists : JVal → Except String TopArtists
  | .obj fs => do
      let i ← decArrWith decodeArtistItem (jlookup fs "items")
      let t ← decInt (jlookup fs "total")
      let l ← decInt (jlookup fs "limit")
      let o ← decInt (jlookup fs "offset")
      let e ← decStr (jlookup fs "href")
      let p ← decStr (jlookup fs "previous")
      let n ← decStr (jlookup fs "next")
      .ok ⟨i, t, l, o, e, p, n⟩
  | .null => .ok {}
  | _ => .error "json: cannot unmarshal value into Go value of type spotify.TopArtists"

/-- BeatBar contains position and duration information for a given bar
or beat in a track (struct `BeatBar` of the audio-analysis file). -/
structure BeatBar where
  Start : Rat := 0
  Duration : Rat := 0
  Confidence : Rat := 0

/-- JSON keys of `BeatBar`, from its field tags. -/
def beatBarKey : String → String
  | "Start" => "start"
  | "Duration" => "duration"
  | "Confidence" => "confidence"
  | _ => ""

/-- Decode a `BeatBar` per its JSON tags. -/
def decodeBeatBar : JVal → Except String BeatBar
  | .obj fs => do
      let s ← decFloat (jlookup fs "start")
      let d ← decFloat (jlookup fs "duration")
      let c ← decFloat (jlookup fs "confidence")
      .ok ⟨s, d, c⟩
  | .null => .ok {}
  | _ => .error "json: cannot unmarshal value into Go value of type spotify.BeatBar"

/-- Meta contains metadata on the analysis process for the track (struct
`Meta` of the audio-analysis file). -/
structure Meta where
  Analyzer : String := ""
  Platform : String := ""
  Status : String := ""
  StatusCode : Int := 0
  Timestamp : Int := 0
  AnalysisTime : Rat := 0
  InputProcess : String := ""

/-- JSON keys of `Meta`, from its field tags. -/
def metaKey : String → String
  | "Analyzer" => "analyzer_version"
  | "Platform" => "platform"
  | "Status" => "detailed_status"
  | "StatusCode" => "status_code"
  | "Timestamp" => "timestamp"
  | "AnalysisTime" => "analysis_time"
  | "InputProcess" => "input_process"
  | _ => ""

/-- Decode a `Meta` per its JSON tags. -/
def decodeMeta : JVal → Except String Meta
  | .obj fs => do
      let a ← decStr (jlookup fs "analyzer_version")
      let p ← decStr (jlookup fs "platform")
      let s ← decStr (jlookup fs "detailed_status")
      let sc ← decInt (jlookup fs "status_code")
      let t ← decInt (jlookup fs "timestamp")
      let an ← decFloat (jlookup fs "analysis_time")
      let ip ← decStr (jlookup fs "input_process")
      .ok ⟨a, p, s, sc, t, an, ip⟩
  | .null => .ok {}
  | _ => .error "json: cannot unmarshal value into Go value of type spotify.Meta"

/-- Section contains audio information for specific sections of a track
(struct `Section` of the audio-analysis file). -/
structure Section where
  Start : Rat := 0
  Duration : Rat := 0
  Confidence : Rat := 0
  Loudness : Rat := 0
  Tempo : Rat := 0
  TempoConfidence : Rat := 0
  Key : Int := 0
  KeyConfidence : Rat := 0
  Mode : Int := 0
  ModeConfidence : Rat := 0
  TimeSignature : Int := 0
  TimeSigConfidence : Rat := 0

/-- JSON keys of `Section`, from its field tags. -/
def sectionKey : String → String
  | "Start" => "start"
  | "Duration" => "duration"
  | "Confidence" => "confidence"
  | "Loudness" => "loudness"
  | "Tempo" => "tempo"
  | "TempoConfidence" => "tempo_confidence"
  | "Key" => "key"
  | "KeyConfidence" => "key_confidence"
  | "Mode" => "mode"
  | "ModeConfidence" => "mode_confidence"
  | "TimeSignature" => "time_signature"
  | "TimeSigConfidence" => "time_signature_confidence"
  | _ => ""

/-- Decode a `Section` per its JSON tags. -/
def decodeSection : JVal → Except String Section
  | .obj fs => do
      let s ← decFloat (jlookup fs "start")
      let d ← decFloat (jlookup fs "duration")
      let c ← decFloat (jlookup fs "confidence")
      let l ← decFloat (jlookup fs "loudness")
      let t ← decFloat (jlookup fs "tempo")
      let tc ← decFloat (jlookup fs "tempo_confidence")
      let k ← decInt (jlookup fs "key")
      let kc ← decFloat (jlookup fs "key_confidence")
      let m ← decInt (jlookup fs "mode")
      let mc ← decFloat (jlookup fs "mode_confidence")
      let ts ← decInt (jlookup fs "time_signature")
      let tsc ← decFloat (jlookup fs "time_signature_confidence")
      .ok ⟨s, d, c, l, t, tc, k, kc, m, mc, ts, tsc⟩
  | .null => .ok {}
  | _ => .error "json: cannot unmarshal value into Go value of type spotify.Section"

/-- Segment contains audio information for specific segments of a track
(struct `Segment` of the audio-analysis file). -/
structure Segment where
  Start : Rat := 0
  Duration : Rat := 0
  Confidence : Rat := 0
  LoudnessStart : Rat := 0
  LoudnessMaxTime : Rat := 0
  LoudnessMax : Rat := 0
  LoudnessEnd : Rat := 0
  Pitches : List Rat := []
  Timbre : List Rat := []

/-- JSON keys of `Segment`, from its field tags. -/
def segmentKey : String → String
  | "Start" => "start"
  | "Duration" => "duration"
  | "Confidence" => "confidence"
  | "LoudnessStart" => "loudness_start"
  | "LoudnessMaxTime" => "loudness_max_time"
  | "LoudnessMax" => "loudness_max"
  | "LoudnessEnd" => "loudness_end"
  | "Pitches" => "pitches"
  | "Timbre" => "timbre"
  | _ => ""

/-- Decode a `Segment` per its JSON tags. -/
def decodeSegment : JVal → Except String Segment
  | .obj fs => do
      let s ← decFloat (jlookup fs "start")
      let d ← decFloat (jlookup fs "duration")
      let c ← decFloat (jlookup fs "confidence")
      let ls ← decFloat (jlookup fs "loudness_start")
      let lmt ← decFloat (jlookup fs "loudness_max_time")
      let lm ← decFloat (jlookup fs "loudness_max")
      let le ← decFloat (jlookup fs "loudness_end")
      let p ← decFloatArr (jlookup fs "pitches")
      let t ← decFloatArr (jlookup fs "timbre")
      .ok ⟨s, d, c, ls, lmt, lm, le, p, t⟩
  | .null => .ok {}
  | _ => .error "json: cannot unmarshal value into Go value of type spotify.Segment"

/-- Tatum contains position and duration information on the lowest
regular pulse (struct `Tatum` of the audio-analysis file). -/
structure Tatum where
  Start : Rat := 0
  Duration : Rat := 0
  Confidence : Rat := 0

/-- JSON keys of `Tatum`, from its field tags. -/
def tatumKey : String → String
  | "Start" => "start"
  | "Duration" => "duration"
  | "Confidence" => "confidence"
  | _ => ""

/-- Decode a `Tatum` per its JSON tags. -/
def decodeTatum : JVal → Except String Tatum
  | .obj fs => do
      let s ← decFloat (jlookup fs "start")
      let d ← decFloat (jlookup fs "duration")
      let c ← decFloat (jlookup fs "confidence")
      .ok ⟨s, d, c⟩
  | .null => .ok {}
  | _ => .error "json: cannot unmarshal value into Go value of type spotify.Tatum"

/-- TrackInfo contains metadata on the entire track and its analysis
(struct `TrackInfo` of the audio-analysis file). -/
structure TrackInfo where
  NumSamples : Int := 0
  Duration : Rat := 0
  SampleMD5 : String := ""
  OffsetSeconds : Rat := 0
  WindowSeconds : Rat := 0
  AnalysisSampleRate : Int := 0
  AnalysisChannels : Int := 0
  EndFadeIn : Rat := 0
  StartFadeOut : Rat := 0
  Loudness : Rat := 0
  Tempo : Rat := 0
  TempoConfidence : Rat := 0
  TimeSignature : Int := 0
  TimeSigConfidence : Rat := 0
  Key : Int := 0
  KeyConfidence : Rat := 0
  Mode : Int := 0
  ModeConfidence : Rat := 0
  Codestring : String := ""
  CodeVersion : Rat := 0
  EchoPrintString : String := ""
  EchoPrintVersion : Rat := 0
  SynchString : String := ""
  SynchVersion : Rat := 0
  RhythmString : String := ""
  RhythmVersion : Rat := 0

/-- JSON keys of `TrackInfo`, from its field tags (the `omitempty`
options on `num_samples` and `sample_md5` affect encoding only). -/
def trackInfoKey : String → String
  | "NumSamples" => "num_samples"
  | "Duration" => "duration"
  | "SampleMD5" => "sample_md5"
  | "OffsetSeconds" => "offset_seconds"
  | "WindowSeconds" => "window_seconds"
  | "AnalysisSampleRate" => "analysis_sample_rate"
  | "AnalysisChannels" => "analysis_channels"
  | "EndFadeIn" => "end_of_fade_in"
  | "StartFadeOut" => "start_of_fade_out"
  | "Loudness" => "loudness"
  | "Tempo" => "tempo"
  | "TempoConfidence" => "tempo_confidence"
  | "TimeSignature" => "time_signature"
  | "TimeSigConfidence" => "time_signature_confidence"
  | "Key" => "key"
  | "KeyConfidence" => "key_confidence"
  | "Mode" => "mode"
  | "ModeConfidence" => "mode_confidence"
  | "Codestring" => "codestring"
  | "CodeVersion" => "code_version"
  | "EchoPrintString" => "echoprintstring"
  | "EchoPrintVersion" => "echoprint_version"
  | "SynchString" => "synchstring"
  | "SynchVersion" => "synch_version"
  | "RhythmString" => "rhythmstring"
  | "RhythmVersion" => "rhythm_version"
  | _ => ""

/-- Decode a `TrackInfo` per its JSON tags. -/
def decodeTrackInfo : JVal → Except String TrackInfo
  | .obj fs => do
      let ns ← decInt (jlookup fs "num_samples")
      let du ← decFloat (jlookup fs "duration")
      let sm ← decStr (jlookup fs "sample_md5")
      let os ← decFloat (jlookup fs "offset_seconds")
      let ws ← decFloat (jlookup fs "window_seconds")
      let asr ← decInt (jlookup fs "analysis_sample_rate")
      let ac ← decInt (jlookup fs "analysis_channels")
      let ef ← decFloat (jlookup fs "end_of_fade_in")
      let sf ← decFloat (jlookup fs "start_of_fade_out")
      let lo ← decFloat (jlookup fs "loudness")
      let te ← decFloat (jlookup fs "tempo")
      let tc ← decFloat (jlookup fs "tempo_confidence")
      let ts ← decInt (jlookup fs "time_signature")
      let tsc ← decFloat (jlookup fs "time_signature_confidence")
      let k ← decInt (jlookup fs "key")
      let kc ← decFloat (jlookup fs "key_confidence")
      let m ← decInt (jlookup fs "mode")
      let mc ← decFloat (jlookup fs "mode_confidence")
      let cs ← decStr (jlookup fs "codestring")
      let cv ← decFloat (jlookup fs "code_version")
      let es ← decStr (jlookup fs "echoprintstring")
      let ev ← decFloat (jlookup fs "echoprint_version")
      let ss ← decStr (jlookup fs "synchstring")
      let sv ← decFloat (jlookup fs "synch_version")
      let rs ← decStr (jlookup fs "rhythmstring")
      let rv ← decFloat (jlookup fs "rhythm_version")
      .ok ⟨ns, du, sm, os, ws, asr, ac, ef, sf, lo, te, tc, ts, tsc, k, kc, m, mc, cs, cv, es, ev, ss, sv, rs, rv⟩
  | .null => .ok {}
  | _ => .error "json: cannot unmarshal value into Go value of type spotify.TrackInfo"

/-- AudioAnalysis contains audio information and metadata for the
specified track (struct `AudioAnalysis` of the audio-analysis file). -/
structure AudioAnalysis where
  Bars : List BeatBar := []
  Beats : List BeatBar := []
  Meta : Meta := {}
  Sections : List Section := []
  Segments : List Segment := []
  Tatums : List Tatum := []
  TrackInfo : TrackInfo := {}

/-- JSON keys of `AudioAnalysis`, from its field tags. -/
def audioAnalysisKey : String → String
  | "Bars" => "bars"
  | "Beats" => "beats"
  | "Meta" => "meta"
  | "Sections" => "sections"
  | "Segments" => "segments"
  | "Tatums" => "tatums"
  | "TrackInfo" => "track"
  | _ => ""

/-- Decode an `AudioAnalysis` per its JSON tags. -/
def decodeAudioAnalysis : JVal → Except String AudioAnalysis
  | .obj fs => do
      let ba ← decArrWith decodeBeatBar (jlookup fs "bars")
      let be ← decArrWith decodeBeatBar (jlookup fs "beats")
      let me ← match jlookup fs "meta" with
        | none => .ok ({} : Meta)
        | some v => decodeMeta v
      let sec ← decArrWith decodeSection (jlookup fs "sections")
      let seg ← decArrWith decodeSegment (jlookup fs "segments")
      let ta ← decArrWith decodeTatum (jlookup fs "tatums")
      let ti ← match jlookup fs "track" with
        | none => .ok ({} : TrackInfo)
        | some v => decodeTrackInfo v
      .ok ⟨ba, be, me, sec, seg, ta, ti⟩
  | .null => .ok {}
  | _ => .error "json: cannot unmarshal value into Go value of type spotify.AudioAnalysis"

/-- An HTTP response as seen by the library: a status code and a body.
The body is carried as its decoded JSON value (the library's only uses
of the body are JSON decoding). -/
structure HTTPResponse where
  statusCode : Nat
  body : JVal

/-- Result of `c.http.Get(url)`: a transport error or a response. -/
inductive GetResult where
  | err : String → GetResult
  | ok : HTTPResponse → GetResult

/-- The authenticated client object: its HTTP `Get` is modelled as a
function from the request URL to a transport-error-or-response. -/
structure Client where
  httpGet : String → GetResult

/-- Modelled from the spec: `baseAddress` (defined elsewhere in the
repository) is the fixed leading part of every endpoint URL.  Every claim
about URLs is stated relative to it, so its exact value is immaterial. -/
def baseAddress : String := "https://api.spotify.com/v1/"

/-- `http.StatusOK` of Go's net/http. -/
def StatusOK : Nat := 200

/-- The Go `error` values the library can return. -/
inductive GoError where
  | validation : String → GoError
  | transport : String → GoError
  | upstream : JVal → GoError
  | jsonDecode : String → GoError

/-- True exactly for a local validation error (`errors.New` in the
operation itself). -/
def GoError.isValidation : GoError → Bool
  | .validation _ => true
  | _ => false

/-- True exactly for a transport error returned by `c.http.Get`. -/
def GoError.isTransport : GoError → Bool
  | .transport _ => true
  | _ => false

/-- True exactly for an upstream error body passed through by
`decodeError`. -/
def GoError.isUpstream : GoError → Bool
  | .upstream _ => true
  | _ => false

/-- True exactly for a JSON decoding error of a success body. -/
def GoError.isJsonDecode : GoError → Bool
  | .jsonDecode _ => true
  | _ => false

/-- Modelled from the spec: `decodeError` (defined elsewhere in the
repository) decodes the upstream error response body and passes it
through as the returned error. -/
def decodeError (body : JVal) : GoError := .upstream body

/-- Observable events of one operation run: an HTTP GET of a URL, the
decoding of an error response body by `decodeError`, or the JSON
decoding of a success response body. -/
inductive Event where
  | httpGet : String → Event
  | decodeErrBody : Event
  | decodeRespBody : Event
deriving DecidableEq

/-- Number of HTTP GET events in a trace. -/
def countGets (tr : List Event) : Nat :=
  tr.countP (fun e => match e with | .httpGet _ => true | _ => false)

/-- Number of body-decoding events (error body or success body) in a
trace. -/
def countDecodes (tr : List Event) : Nat :=
  tr.countP (fun e => match e with | .httpGet _ => false | _ => true)

/-- The outcome of one operation run: the trace of observable events,
the returned result pointer (`none` is Go's nil) and the returned
error (`none` is Go's nil error). -/
structure RunResult (α : Type) where
  trace : List Event
  result : Option α
  error : Option GoError

/-- The validation error message of `CurrentUserRecentTracks`. -/
def recentTracksCountMsg : String :=
  "CurrentUserRecentTracks supports up to 50 tracks per call"

/-- The count validation error message of `CurrentUserTopTracks`. -/
def topTracksCountMsg : String :=
  "CurrentUserTopTracks supports up to 50 tracks per call"

/-- The time-range validation error message of `CurrentUserTopTracks`. -/
def topTracksTimeMsg : String :=
  "CurrentUserTopTracks supports \"short\", \"medium\", and \"long\" time ranges"

/-- The count validation error message of `CurrentUserTopArtists` (the
source reuses the word "tracks"). -/
def topArtistsCountMsg : String :=
  "CurrentUserTopArtists supports up to 50 tracks per call"

/-- The time-range validation error message of `CurrentUserTopArtists`. -/
def topArtistsTimeMsg : String :=
  "CurrentUserTopArtists supports \"short\", \"medium\", and \"long\" time ranges"

/-- CurrentUserRecentTracks returns the user's most recently played
tracks in a single PlayHistory object (function
`CurrentUserRecentTracks` of personalization.go). -/
def Client.CurrentUserRecentTracks (c : Client) (total : Int) : RunResult PlayHistory :=
  if total ≤ 0 ∨ total > 50 then
    ⟨[], none, some (.validation recentTracksCountMsg)⟩
  else
    match c.httpGet (baseAddress ++ "me/player/recently-played?limit=" ++ toString total) with
    | .err e =>
        ⟨[.httpGet (baseAddress ++ "me/player/recently-played?limit=" ++ toString total)],
         none, some (.transport e)⟩
    | .ok resp =>
        if resp.statusCode ≠ StatusOK then
          ⟨[.httpGet (baseAddress ++ "me/player/recently-played?limit=" ++ toString total),
            .decodeErrBody],
           none, some (decodeError resp.body)⟩
        else
          match decodePlayHistory resp.body with
          | .error e =>
              ⟨[.httpGet (baseAddress ++ "me/player/recently-played?limit=" ++ toString total),
                .decodeRespBody],
               none, some (.jsonDecode e)⟩
          | .ok h =>
              ⟨[.httpGet (baseAddress ++ "me/player/recently-played?limit=" ++ toString total),
                .decodeRespBody],
               some h, none⟩

/-- CurrentUserTopTracks returns the user's top tracks in a single
TopTracks object (function `CurrentUserTopTracks` of
personalization.go). -/
def Client.CurrentUserTopTracks (c : Client) (total : Int) (time : String) : RunResult TopTracks :=
  if total ≤ 0 ∨ total > 50 then
    ⟨[], none, some (.validation topTracksCountMsg)⟩
  else if time ≠ "short" ∧ time ≠ "medium" ∧ time ≠ "long" then
    ⟨[], none, some (.validation topTracksTimeMsg)⟩
  else
    match c.httpGet (baseAddress ++ "me/top/tracks?time_range=" ++ time ++ "_term&limit=" ++ toString total) with
    | .err e =>
        ⟨[.httpGet (baseAddress ++ "me/top/tracks?time_range=" ++ time ++ "_term&limit=" ++ toString total)],
         none, some (.transport e)⟩
    | .ok resp =>
        if resp.statusCode ≠ StatusOK then
          ⟨[.httpGet (baseAddress ++ "me/top/tracks?time_range=" ++ time ++ "_term&limit=" ++ toString total),
            .decodeErrBody],
           none, some (decodeError resp.body)⟩
        else
          match decodeTopTracks resp.body with
          | .error e =>
              ⟨[.httpGet (baseAddress ++ "me/top/tracks?time_range=" ++ time ++ "_term&limit=" ++ toString total),
                .decodeRespBody],
               none, some (.jsonDecode e)⟩
          | .ok t =>
              ⟨[.httpGet (baseAddress ++ "me/top/tracks?time_range=" ++ time ++ "_term&limit=" ++ toString total),
                .decodeRespBody],
               some t, none⟩

/-- CurrentUserTopArtists returns the user's top artists in a single
TopArtists object (function `CurrentUserTopArtists` of
personalization.go). -/
def Client.CurrentUserTopArtists (c : Client) (total : Int) (time : String) : RunResult TopArtists :=
  if total ≤ 0 ∨ total > 50 then
    ⟨[], none, some (.validation topArtistsCountMsg)⟩
  else if time ≠ "short" ∧ time ≠ "medium" ∧ time ≠ "long" then
    ⟨[], none, some (.validation topArtistsTimeMsg)⟩
  else
    match c.httpGet (baseAddress ++ "me/top/artists?time_range=" ++ time ++ "_term&limit=" ++ toString total) with
    | .err e =>
        ⟨[.httpGet (baseAddress ++ "me/top/artists?time_range=" ++ time ++ "_term&limit=" ++ toString total)],
         none, some (.transport e)⟩
    | .ok resp =>
        if resp.statusCode ≠ StatusOK then
          ⟨[.httpGet (baseAddress ++ "me/top/artists?time_range=" ++ time ++ "_term&limit=" ++ toString total),
            .decodeErrBody],
           none, some (decodeError resp.body)⟩
        else
          match decodeTopArtists resp.body with
          | .error e =>
              ⟨[.httpGet (baseAddress ++ "me/top/artists?time_range=" ++ time ++ "_term&limit=" ++ toString total),
                .decodeRespBody],
               none, some (.jsonDecode e)⟩
          | .ok t =>
              ⟨[.httpGet (baseAddress ++ "me/top/artists?time_range=" ++ time ++ "_term&limit=" ++ toString total),
                .decodeRespBody],
               some t, none⟩

/-- GetAudioAnalysis takes a track ID and returns the audio analysis
information for the associated track (function `GetAudioAnalysis` of
the audio-analysis file).  There is no validation of `id`. -/
def Client.GetAudioAnalysis (c : Client) (id : ID) : RunResult AudioAnalysis :=
  match c.httpGet (baseAddress ++ "audio-analysis/" ++ idString id) with
  | .err e =>
      ⟨[.httpGet (baseAddress ++ "audio-analysis/" ++ idString id)],
       none, some (.transport e)⟩
  | .ok resp =>
      if resp.statusCode ≠ StatusOK then
        ⟨[.httpGet (baseAddress ++ "audio-analysis/" ++ idString id),
          .decodeErrBody],
         none, some (decodeError resp.body)⟩
      else
        match decodeAudioAnalysis resp.body with
        | .error e =>
            ⟨[.httpGet (baseAddress ++ "audio-analysis/" ++ idString id),
              .decodeRespBody],
             none, some (.jsonDecode e)⟩
        | .ok a =>
            ⟨[.httpGet (baseAddress ++ "audio-analysis/" ++ idString id),
              .decodeRespBody],
             some a, none⟩

/-- A status code is in the HTTP success class when it is 2xx. -/
def isSuccessStatus (s : Nat) : Bool := 200 ≤ s && s < 300

/-- A client whose every GET succeeds with status 200 and an empty JSON
object body. -/
def okClient : Client := ⟨fun _ => .ok ⟨200, .obj []⟩⟩

/-- A client whose every GET succeeds with status 404 and an upstream
error body. -/
def notFoundClient : Client :=
  ⟨fun _ => .ok ⟨404, .obj [("error", .obj [("status", .num 404), ("message", .str "Not found.")])]⟩⟩

/-- A client whose every GET fails with a transport error. -/
def failClient : Client := ⟨fun _ => .err "connection refused"⟩

/-- A client whose every GET succeeds with status 204 and no content. -/
def noContentClient : Client := ⟨fun _ => .ok ⟨204, .null⟩⟩

/-- A success-response body for a single top-tracks item, as the
upstream schema documents it: the track's name and its object type
under the JSON key "type". -/
def trackItemFixtureC4 : JVal :=
  .obj [("name", .str "Song"), ("type", .str "track")]

theorem recentTracks_invalid (c : Client) (total : Int)
    (h : total ≤ 0 ∨ total > 50) :
    c.CurrentUserRecentTracks total
      = ⟨[], none, some (.validation recentTracksCountMsg)⟩ := by
  unfold Client.CurrentUserRecentTracks
  rw [if_pos h]

theorem topTracks_invalidCount (c : Client) (total : Int) (time : String)
    (h : total ≤ 0 ∨ total > 50) :
    c.CurrentUserTopTracks total time
      = ⟨[], none, some (.validation topTracksCountMsg)⟩ := by
  unfold Client.CurrentUserTopTracks
  rw [if_pos h]

theorem topArtists_invalidCount (c : Client) (total : Int) (time : String)
    (h : total ≤ 0 ∨ total > 50) :
    c.CurrentUserTopArtists total time
      = ⟨[], none, some (.validation topArtistsCountMsg)⟩ := by
  unfold Client.CurrentUserTopArtists
  rw [if_pos h]

theorem topTracks_invalidTime (c : Client) (total : Int) (time : String)
    (h : ¬(total ≤ 0 ∨ total > 50))
    (ht : time ≠ "short" ∧ time ≠ "medium" ∧ time ≠ "long") :
    c.CurrentUserTopTracks total time
      = ⟨[], none, some (.validation topTracksTimeMsg)⟩ := by
  unfold Client.CurrentUserTopTracks
  rw [if_neg h, if_pos ht]

theorem topArtists_invalidTime (c : Client) (total : Int) (time : String)
    (h : ¬(total ≤ 0 ∨ total > 50))
    (ht : time ≠ "short" ∧ time ≠ "medium" ∧ time ≠ "long") :
    c.CurrentUserTopArtists total time
      = ⟨[], none, some (.validation topArtistsTimeMsg)⟩ := by
  unfold Client.CurrentUserTopArtists
  rw [if_neg h, if_pos ht]

/-- C1: for every integer total with total <= 0 or total > 50, each of
CurrentUserRecentTracks(total), CurrentUserTopTracks(total, time) and
CurrentUserTopArtists(total, time) returns a nil result and a non-nil
local validation error; for every total in 1..50 no count-validation
error is returned. -/
theorem C1_count_validation (c : Client) (total : Int) (time : String) :
    ((total ≤ 0 ∨ total > 50) →
      (c.CurrentUserRecentTracks total).result = none ∧
      (c.CurrentUserRecentTracks total).error
        = some (.validation recentTracksCountMsg) ∧
      (c.CurrentUserTopTracks total time).result = none ∧
      (c.CurrentUserTopTracks total time).error
        = some (.validation topTracksCountMsg) ∧
      (c.CurrentUserTopArtists total time).result = none ∧
      (c.CurrentUserTopArtists total time).error
        = some (.validation topArtistsCountMsg))
    ∧ (1 ≤ total → total ≤ 50 →
      (c.CurrentUserRecentTracks total).error
        ≠ some (.validation recentTracksCountMsg) ∧
      (c.CurrentUserTopTracks total time).error
        ≠ some (.validation topTracksCountMsg) ∧
      (c.CurrentUserTopArtists total time).error
        ≠ some (.validation topArtistsCountMsg)) := by
  constructor
  · intro h
    rw [recentTracks_invalid c total h, topTracks_invalidCount c total time h,
      topArtists_invalidCount c total time h]
    exact ⟨rfl, rfl, rfl, rfl, rfl, rfl⟩
  · intro h1 h2
    have h : ¬(total ≤ 0 ∨ total > 50) := by omega
    refine ⟨?_, ?_, ?_⟩
    · unfold Client.CurrentUserRecentTracks
      rw [if_neg h]
      split
      · simp
      · split
        · simp [decodeError]
        · split <;> simp
    · unfold Client.CurrentUserTopTracks
      rw [if_neg h]
      split
      · simp [topTracksTimeMsg, topTracksCountMsg]
      · split
        · simp
        · split
          · simp [decodeError]
          · split <;> simp
    · unfold Client.CurrentUserTopArtists
      rw [if_neg h]
      split
      · simp [topArtistsTimeMsg, topArtistsCountMsg]
      · split
        · simp
        · split
          · simp [decodeError]
          · split <;> simp

/-- Witness for C1 at total = 0 (invalid) and total = 10 (valid). -/
theorem C1_count_validation_witness :
    ((okClient.CurrentUserRecentTracks 0).result = none ∧
      (okClient.CurrentUserRecentTracks 0).error
        = some (.validation recentTracksCountMsg) ∧
      (okClient.CurrentUserTopTracks 0 "short").result = none ∧
      (okClient.CurrentUserTopTracks 0 "short").error
        = some (.validation topTracksCountMsg) ∧
      (okClient.CurrentUserTopArtists 0 "short").result = none ∧
      (okClient.CurrentUserTopArtists 0 "short").error
        = some (.validation topArtistsCountMsg))
    ∧ ((okClient.CurrentUserRecentTracks 10).error
        ≠ some (.validation recentTracksCountMsg) ∧
      (okClient.CurrentUserTopTracks 10 "short").error
        ≠ some (.validation topTracksCountMsg) ∧
      (okClient.CurrentUserTopArtists 10 "short").error
        ≠ some (.validation topArtistsCountMsg)) :=
  ⟨(C1_count_validation okClient 0 "short").1 (Or.inl (by decide)),
   (C1_count_validation okClient 10 "short").2 (by decide) (by decide)⟩

/-- C2: for every string time not equal to "short", "medium", or
"long", CurrentUserTopTracks(total, time) and
CurrentUserTopArtists(total, time) (with total in 1..50) return a nil
result and a non-nil local validation error; for exactly those three
labels no time-range validation error is returned. -/
theorem C2_time_validation (c : Client) (total : Int) (time : String)
    (h1 : 1 ≤ total) (h2 : total ≤ 50) :
    ((time ≠ "short" ∧ time ≠ "medium" ∧ time ≠ "long") →
      (c.CurrentUserTopTracks total time).result = none ∧
      (c.CurrentUserTopTracks total time).error
        = some (.validation topTracksTimeMsg) ∧
      (c.CurrentUserTopArtists total time).result = none ∧
      (c.CurrentUserTopArtists total time).error
        = some (.validation topArtistsTimeMsg))
    ∧ ((time = "short" ∨ time = "medium" ∨ time = "long") →
      (c.CurrentUserTopTracks total time).error
        ≠ some (.validation topTracksTimeMsg) ∧
      (c.CurrentUserTopArtists total time).error
        ≠ some (.validation topArtistsTimeMsg)) := by
  have h : ¬(total ≤ 0 ∨ total > 50) := by omega
  constructor
  · intro ht
    rw [topTracks_invalidTime c total time h ht,
      topArtists_invalidTime c total time h ht]
    exact ⟨rfl, rfl, rfl, rfl⟩
  · intro ht
    have ht2 : ¬(time ≠ "short" ∧ time ≠ "medium" ∧ time ≠ "long") := by
      rcases ht with h3 | h3 | h3 <;> simp [h3]
    constructor
    · unfold Client.CurrentUserTopTracks
      rw [if_neg h, if_neg ht2]
      split
      · simp
      · split
        · simp [decodeError]
        · split <;> simp
    · unfold Client.CurrentUserTopArtists
      rw [if_neg h, if_neg ht2]
      split
      · simp
      · split
        · simp [decodeError]
        · split <;> simp

/-- Witness for C2 at total = 10 with the invalid label "year" and the
valid label "long". -/
theorem C2_time_validation_witness :
    ((okClient.CurrentUserTopTracks 10 "year").result = none ∧
      (okClient.CurrentUserTopTracks 10 "year").error
        = some (.validation topTracksTimeMsg) ∧
      (okClient.CurrentUserTopArtists 10 "year").result = none ∧
      (okClient.CurrentUserTopArtists 10 "year").error
        = some (.validation topArtistsTimeMsg))
    ∧ ((okClient.CurrentUserTopTracks 10 "long").error
        ≠ some (.validation topTracksTimeMsg) ∧
      (okClient.CurrentUserTopArtists 10 "long").error
        ≠ some (.validation topArtistsTimeMsg)) :=
  ⟨(C2_time_validation okClient 10 "year" (by decide) (by decide)).1
      (by refine ⟨?_, ?_, ?_⟩ <;> decide),
   (C2_time_validation okClient 10 "long" (by decide) (by decide)).2
      (Or.inr (Or.inr rfl))⟩

theorem recentTracks_badStatus (c : Client) (total : Int) (resp : HTTPResponse)
    (h : ¬(total ≤ 0 ∨ total > 50))
    (hget : c.httpGet (baseAddress ++ "me/player/recently-played?limit=" ++ toString total)
      = .ok resp)
    (hs : resp.statusCode ≠ StatusOK) :
    c.CurrentUserRecentTracks total
      = ⟨[.httpGet (baseAddress ++ "me/player/recently-played?limit=" ++ toString total),
          .decodeErrBody], none, some (decodeError resp.body)⟩ := by
  unfold Client.CurrentUserRecentTracks
  rw [if_neg h, hget]
  dsimp only
  rw [if_pos hs]

theorem topTracks_badStatus (c : Client) (total : Int) (time : String) (resp : HTTPResponse)
    (h : ¬(total ≤ 0 ∨ total > 50))
    (ht : ¬(time ≠ "short" ∧ time ≠ "medium" ∧ time ≠ "long"))
    (hget : c.httpGet (baseAddress ++ "me/top/tracks?time_range=" ++ time ++ "_term&limit=" ++ toString total)
      = .ok resp)
    (hs : resp.statusCode ≠ StatusOK) :
    c.CurrentUserTopTracks total time
      = ⟨[.httpGet (baseAddress ++ "me/top/tracks?time_range=" ++ time ++ "_term&limit=" ++ toString total),
          .decodeErrBody], none, some (decodeError resp.body)⟩ := by
  unfold Client.CurrentUserTopTracks
  rw [if_neg h, if_neg ht, hget]
  dsimp only
  rw [if_pos hs]

theorem topArtists_badStatus (c : Client) (total : Int) (time : String) (resp : HTTPResponse)
    (h : ¬(total ≤ 0 ∨ total > 50))
    (ht : ¬(time ≠ "short" ∧ time ≠ "medium" ∧ time ≠ "long"))
    (hget : c.httpGet (baseAddress ++ "me/top/artists?time_range=" ++ time ++ "_term&limit=" ++ toString total)
      = .ok resp)
    (hs : resp.statusCode ≠ StatusOK) :
    c.CurrentUserTopArtists total time
      = ⟨[.httpGet (baseAddress ++ "me/top/artists?time_range=" ++ time ++ "_term&limit=" ++ toString total),
          .decodeErrBody], none, some (decodeError resp.body)⟩ := by
  unfold Client.CurrentUserTopArtists
  rw [if_neg h, if_neg ht, hget]
  dsimp only
  rw [if_pos hs]

theorem audioAnalysis_badStatus (c : Client) (id : ID) (resp : HTTPResponse)
    (hget : c.httpGet (baseAddress ++ "audio-analysis/" ++ idString id) = .ok resp)
    (hs : resp.statusCode ≠ StatusOK) :
    c.GetAudioAnalysis id
      = ⟨[.httpGet (baseAddress ++ "audio-analysis/" ++ idString id),
          .decodeErrBody], none, some (decodeError resp.body)⟩ := by
  unfold Client.GetAudioAnalysis
  rw [hget]
  dsimp only
  rw [if_pos hs]

/-- C3: for every operation and every HTTP response whose status is not
a success status, the operation returns a nil (never partially
populated) result together with the error decoded from the upstream
response body by decodeError. -/
theorem C3_nonsuccess_upstream (c : Client) (total : Int) (time : String)
    (id : ID) (resp : HTTPResponse)
    (hs : isSuccessStatus resp.statusCode = false) :
    (1 ≤ total → total ≤ 50 →
      c.httpGet (baseAddress ++ "me/player/recently-played?limit=" ++ toString total)
        = .ok resp →
      (c.CurrentUserRecentTracks total).result = none ∧
      (c.CurrentUserRecentTracks total).error = some (decodeError resp.body))
    ∧ (1 ≤ total → total ≤ 50 →
      (time = "short" ∨ time = "medium" ∨ time = "long") →
      c.httpGet (baseAddress ++ "me/top/tracks?time_range=" ++ time ++ "_term&limit=" ++ toString total)
        = .ok resp →
      (c.CurrentUserTopTracks total time).result = none ∧
      (c.CurrentUserTopTracks total time).error = some (decodeError resp.body))
    ∧ (1 ≤ total → total ≤ 50 →
      (time = "short" ∨ time = "medium" ∨ time = "long") →
      c.httpGet (baseAddress ++ "me/top/artists?time_range=" ++ time ++ "_term&limit=" ++ toString total)
        = .ok resp →
      (c.CurrentUserTopArtists total time).result = none ∧
      (c.CurrentUserTopArtists total time).error = some (decodeError resp.body))
    ∧ (c.httpGet (baseAddress ++ "audio-analysis/" ++ idString id) = .ok resp →
      (c.GetAudioAnalysis id).result = none ∧
      (c.GetAudioAnalysis id).error = some (decodeError resp.body)) := by
  have hns : resp.statusCode ≠ StatusOK := by
    simp [isSuccessStatus, StatusOK] at hs ⊢
    omega
  refine ⟨?_, ?_, ?_, ?_⟩
  · intro h1 h2 hget
    rw [recentTracks_badStatus c total resp (by omega) hget hns]
    exact ⟨rfl, rfl⟩
  · intro h1 h2 ht hget
    have ht2 : ¬(time ≠ "short" ∧ time ≠ "medium" ∧ time ≠ "long") := by
      rcases ht with h3 | h3 | h3 <;> simp [h3]
    rw [topTracks_badStatus c total time resp (by omega) ht2 hget hns]
    exact ⟨rfl, rfl⟩
  · intro h1 h2 ht hget
    have ht2 : ¬(time ≠ "short" ∧ time ≠ "medium" ∧ time ≠ "long") := by
      rcases ht with h3 | h3 | h3 <;> simp [h3]
    rw [topArtists_badStatus c total time resp (by omega) ht2 hget hns]
    exact ⟨rfl, rfl⟩
  · intro hget
    rw [audioAnalysis_badStatus c id resp hget hns]
    exact ⟨rfl, rfl⟩

/-- Witness for C3: a client answering 404 with an upstream error body,
at total = 10, time = "short", id = "abc". -/
theorem C3_nonsuccess_upstream_witness :
    ((notFoundClient.CurrentUserRecentTracks 10).result = none ∧
      (notFoundClient.CurrentUserRecentTracks 10).error
        = some (decodeError (.obj [("error", .obj [("status", .num 404), ("message", .str "Not found.")])]))) ∧
    ((notFoundClient.CurrentUserTopTracks 10 "short").result = none ∧
      (notFoundClient.CurrentUserTopTracks 10 "short").error
        = some (decodeError (.obj [("error", .obj [("status", .num 404), ("message", .str "Not found.")])]))) ∧
    ((notFoundClient.CurrentUserTopArtists 10 "short").result = none ∧
      (notFoundClient.CurrentUserTopArtists 10 "short").error
        = some (decodeError (.obj [("error", .obj [("status", .num 404), ("message", .str "Not found.")])]))) ∧
    ((notFoundClient.GetAudioAnalysis "abc").result = none ∧
      (notFoundClient.GetAudioAnalysis "abc").error
        = some (decodeError (.obj [("error", .obj [("status", .num 404), ("message", .str "Not found.")])]))) := by
  have h := C3_nonsuccess_upstream notFoundClient 10 "short" "abc"
    ⟨404, .obj [("error", .obj [("status", .num 404), ("message", .str "Not found.")])]⟩
    (by decide)
  exact ⟨h.1 (by decide) (by decide) rfl,
    h.2.1 (by decide) (by decide) (Or.inl rfl) rfl,
    h.2.2.1 (by decide) (by decide) (Or.inl rfl) rfl,
    h.2.2.2 rfl⟩

theorem recentTracks_transport (c : Client) (total : Int) (m : String)
    (h : ¬(total ≤ 0 ∨ total > 50))
    (hget : c.httpGet (baseAddress ++ "me/player/recently-played?limit=" ++ toString total)
      = .err m) :
    c.CurrentUserRecentTracks total
      = ⟨[.httpGet (baseAddress ++ "me/player/recently-played?limit=" ++ toString total)],
         none, some (.transport m)⟩ := by
  unfold Client.CurrentUserRecentTracks
  rw [if_neg h, hget]

theorem topTracks_transport (c : Client) (total : Int) (time : String) (m : String)
    (h : ¬(total ≤ 0 ∨ total > 50))
    (ht : ¬(time ≠ "short" ∧ time ≠ "medium" ∧ time ≠ "long"))
    (hget : c.httpGet (baseAddress ++ "me/top/tracks?time_range=" ++ time ++ "_term&limit=" ++ toString total)
      = .err m) :
    c.CurrentUserTopTracks total time
      = ⟨[.httpGet (baseAddress ++ "me/top/tracks?time_range=" ++ time ++ "_term&limit=" ++ toString total)],
         none, some (.transport m)⟩ := by
  unfold Client.CurrentUserTopTracks
  rw [if_neg h, if_neg ht, hget]

theorem topArtists_transport (c : Client) (total : Int) (time : String) (m : String)
    (h : ¬(total ≤ 0 ∨ total > 50))
    (ht : ¬(time ≠ "short" ∧ time ≠ "medium" ∧ time ≠ "long"))
    (hget : c.httpGet (baseAddress ++ "me/top/artists?time_range=" ++ time ++ "_term&limit=" ++ toString total)
      = .err m) :
    c.CurrentUserTopArtists total time
      = ⟨[.httpGet (baseAddress ++ "me/top/artists?time_range=" ++ time ++ "_term&limit=" ++ toString total)],
         none, some (.transport m)⟩ := by
  unfold Client.CurrentUserTopArtists
  rw [if_neg h, if_neg ht, hget]

theorem audioAnalysis_transport (c : Client) (id : ID) (m : String)
    (hget : c.httpGet (baseAddress ++ "audio-analysis/" ++ idString id) = .err m) :
    c.GetAudioAnalysis id
      = ⟨[.httpGet (baseAddress ++ "audio-analysis/" ++ idString id)],
         none, some (.transport m)⟩ := by
  unfold Client.GetAudioAnalysis
  rw [hget]

theorem recentTracks_okStatus (c : Client) (total : Int) (resp : HTTPResponse)
    (h : ¬(total ≤ 0 ∨ total > 50))
    (hget : c.httpGet (baseAddress ++ "me/player/recently-played?limit=" ++ toString total)
      = .ok resp)
    (hs : resp.statusCode = StatusOK) :
    c.CurrentUserRecentTracks total
      = match decodePlayHistory resp.body with
        | .error e =>
            ⟨[.httpGet (baseAddress ++ "me/player/recently-played?limit=" ++ toString total),
              .decodeRespBody], none, some (.jsonDecode e)⟩
        | .ok hh =>
            ⟨[.httpGet (baseAddress ++ "me/player/recently-played?limit=" ++ toString total),
              .decodeRespBody], some hh, none⟩ := by
  unfold Client.CurrentUserRecentTracks
  rw [if_neg h, hget]
  dsimp only
  rw [if_neg (by simp [hs])]

theorem topTracks_okStatus (c : Client) (total : Int) (time : String) (resp : HTTPResponse)
    (h : ¬(total ≤ 0 ∨ total > 50))
    (ht : ¬(time ≠ "short" ∧ time ≠ "medium" ∧ time ≠ "long"))
    (hget : c.httpGet (baseAddress ++ "me/top/tracks?time_range=" ++ time ++ "_term&limit=" ++ toString total)
      = .ok resp)
    (hs : resp.statusCode = StatusOK) :
    c.CurrentUserTopTracks total time
      = match decodeTopTracks resp.body with
        | .error e =>
            ⟨[.httpGet (baseAddress ++ "me/top/tracks?time_range=" ++ time ++ "_term&limit=" ++ toString total),
              .decodeRespBody], none, some (.jsonDecode e)⟩
        | .ok t =>
            ⟨[.httpGet (baseAddress ++ "me/top/tracks?time_range=" ++ time ++ "_term&limit=" ++ toString total),
              .decodeRespBody], some t, none⟩ := by
  unfold Client.CurrentUserTopTracks
  rw [if_neg h, if_neg ht, hget]
  dsimp only
  rw [if_neg (by simp [hs])]

theorem topArtists_okStatus (c : Client) (total : Int) (time : String) (resp : HTTPResponse)
    (h : ¬(total ≤ 0 ∨ total > 50))
    (ht : ¬(time ≠ "short" ∧ time ≠ "medium" ∧ time ≠ "long"))
    (hget : c.httpGet (baseAddress ++ "me/top/artists?time_range=" ++ time ++ "_term&limit=" ++ toString total)
      = .ok resp)
    (hs : resp.statusCode = StatusOK) :
    c.CurrentUserTopArtists total time
      = match decodeTopArtists resp.body with
        | .error e =>
            ⟨[.httpGet (baseAddress ++ "me/top/artists?time_range=" ++ time ++ "_term&limit=" ++ toString total),
              .decodeRespBody], none, some (.jsonDecode e)⟩
        | .ok t =>
            ⟨[.httpGet (baseAddress ++ "me/top/artists?time_range=" ++ time ++ "_term&limit=" ++ toString total),
              .decodeRespBody], some t, none⟩ := by
  unfold Client.CurrentUserTopArtists
  rw [if_neg h, if_neg ht, hget]
  dsimp only
  rw [if_neg (by simp [hs])]

theorem audioAnalysis_okStatus (c : Client) (id : ID) (resp : HTTPResponse)
    (hget : c.httpGet (baseAddress ++ "audio-analysis/" ++ idString id) = .ok resp)
    (hs : resp.statusCode = StatusOK) :
    c.GetAudioAnalysis id
      = match decodeAudioAnalysis resp.body with
        | .error e =>
            ⟨[.httpGet (baseAddress ++ "audio-analysis/" ++ idString id),
              .decodeRespBody], none, some (.jsonDecode e)⟩
        | .ok a =>
            ⟨[.httpGet (baseAddress ++ "audio-analysis/" ++ idString id),
              .decodeRespBody], some a, none⟩ := by
  unfold Client.GetAudioAnalysis
  rw [hget]
  dsimp only
  rw [if_neg (by simp [hs])]

/-- C9: a successfully decoded result is returned only when the HTTP
status is exactly 200: any other status code, including other success
class statuses such as 201 or 204, takes the upstream-error-body decode
path and yields a nil result. -/
theorem C9_only_status_200 (c : Client) (total : Int) (time : String)
    (id : ID) (resp : HTTPResponse)
    (hs : resp.statusCode ≠ StatusOK) :
    (c.httpGet (baseAddress ++ "me/player/recently-played?limit=" ++ toString total)
        = .ok resp →
      (c.CurrentUserRecentTracks total).result = none ∧
      (1 ≤ total → total ≤ 50 →
        (c.CurrentUserRecentTracks total).error = some (decodeError resp.body)))
    ∧ (c.httpGet (baseAddress ++ "me/top/tracks?time_range=" ++ time ++ "_term&limit=" ++ toString total)
        = .ok resp →
      (c.CurrentUserTopTracks total time).result = none ∧
      (1 ≤ total → total ≤ 50 →
        (time = "short" ∨ time = "medium" ∨ time = "long") →
        (c.CurrentUserTopTracks total time).error = some (decodeError resp.body)))
    ∧ (c.httpGet (baseAddress ++ "me/top/artists?time_range=" ++ time ++ "_term&limit=" ++ toString total)
        = .ok resp →
      (c.CurrentUserTopArtists total time).result = none ∧
      (1 ≤ total → total ≤ 50 →
        (time = "short" ∨ time = "medium" ∨ time = "long") →
        (c.CurrentUserTopArtists total time).error = some (decodeError resp.body)))
    ∧ (c.httpGet (baseAddress ++ "audio-analysis/" ++ idString id) = .ok resp →
      (c.GetAudioAnalysis id).result = none ∧
      (c.GetAudioAnalysis id).error = some (decodeError resp.body)) := by
  refine ⟨?_, ?_, ?_, ?_⟩
  · intro hget
    by_cases hv : total ≤ 0 ∨ total > 50
    · rw [recentTracks_invalid c total hv]
      exact ⟨rfl, fun h1 h2 => absurd hv (by omega)⟩
    · rw [recentTracks_badStatus c total resp hv hget hs]
      exact ⟨rfl, fun _ _ => rfl⟩
  · intro hget
    by_cases hv : total ≤ 0 ∨ total > 50
    · rw [topTracks_invalidCount c total time hv]
      exact ⟨rfl, fun h1 h2 _ => absurd hv (by omega)⟩
    · by_cases ht : time ≠ "short" ∧ time ≠ "medium" ∧ time ≠ "long"
      · rw [topTracks_invalidTime c total time hv ht]
        refine ⟨rfl, fun _ _ h3 => ?_⟩
        rcases h3 with h3 | h3 | h3 <;> simp [h3] at ht
      · rw [topTracks_badStatus c total time resp hv ht hget hs]
        exact ⟨rfl, fun _ _ _ => rfl⟩
  · intro hget
    by_cases hv : total ≤ 0 ∨ total > 50
    · rw [topArtists_invalidCount c total time hv]
      exact ⟨rfl, fun h1 h2 _ => absurd hv (by omega)⟩
    · by_cases ht : time ≠ "short" ∧ time ≠ "medium" ∧ time ≠ "long"
      · rw [topArtists_invalidTime c total time hv ht]
        refine ⟨rfl, fun _ _ h3 => ?_⟩
        rcases h3 with h3 | h3 | h3 <;> simp [h3] at ht
      · rw [topArtists_badStatus c total time resp hv ht hget hs]
        exact ⟨rfl, fun _ _ _ => rfl⟩
  · intro hget
    rw [audioAnalysis_badStatus c id resp hget hs]
    exact ⟨rfl, rfl⟩

/-- Witness for C9: a client answering 204 No Content, at total = 10,
time = "short", id = "abc". -/
theorem C9_only_status_200_witness :
    ((noContentClient.CurrentUserRecentTracks 10).result = none ∧
      (noContentClient.CurrentUserRecentTracks 10).error
        = some (decodeError .null)) ∧
    ((noContentClient.CurrentUserTopTracks 10 "short").result = none ∧
      (noContentClient.CurrentUserTopTracks 10 "short").error
        = some (decodeError .null)) ∧
    ((noContentClient.CurrentUserTopArtists 10 "short").result = none ∧
      (noContentClient.CurrentUserTopArtists 10 "short").error
        = some (decodeError .null)) ∧
    ((noContentClient.GetAudioAnalysis "abc").result = none ∧
      (noContentClient.GetAudioAnalysis "abc").error
        = some (decodeError .null)) := by
  have h := C9_only_status_200 noContentClient 10 "short" "abc" ⟨204, .null⟩ (by decide)
  exact ⟨⟨(h.1 rfl).1, (h.1 rfl).2 (by decide) (by decide)⟩,
    ⟨(h.2.1 rfl).1, (h.2.1 rfl).2 (by decide) (by decide) (Or.inl rfl)⟩,
    ⟨(h.2.2.1 rfl).1, (h.2.2.1 rfl).2 (by decide) (by decide) (Or.inl rfl)⟩,
    h.2.2.2 rfl⟩

/-- Counterexample to C5 as stated: when the transport fails, the
operation returns the transport error verbatim, which is neither a
local validation error nor an upstream error body passthrough. -/
theorem C5_counterexample :
    (failClient.CurrentUserRecentTracks 10).result = none ∧
    (failClient.CurrentUserRecentTracks 10).error
      = some (.transport "connection refused") ∧
    (GoError.transport "connection refused").isValidation = false ∧
    (GoError.transport "connection refused").isUpstream = false :=
  ⟨rfl, rfl, rfl, rfl⟩

/-- C5 (amended): any non-nil error returned is one of exactly four
kinds: a local validation error (only for out-of-range caller-supplied
parameters), a transport error from the underlying HTTP client's Get,
the upstream error body passed through when the HTTP status is not
200 OK, or a JSON decode error when decoding the success body fails;
no other error kind is ever returned. -/
theorem C5_error_kinds (c : Client) (total : Int) (time : String)
    (id : ID) (e : GoError) :
    ((c.CurrentUserRecentTracks total).error = some e →
      (e.isValidation || e.isTransport || e.isUpstream || e.isJsonDecode) = true ∧
      (e.isValidation = true → total ≤ 0 ∨ total > 50) ∧
      (e.isTransport = true →
        ∃ m, c.httpGet (baseAddress ++ "me/player/recently-played?limit=" ++ toString total)
          = .err m ∧ e = .transport m) ∧
      (e.isUpstream = true →
        ∃ resp, c.httpGet (baseAddress ++ "me/player/recently-played?limit=" ++ toString total)
          = .ok resp ∧ resp.statusCode ≠ StatusOK ∧ e = decodeError resp.body) ∧
      (e.isJsonDecode = true →
        ∃ resp, c.httpGet (baseAddress ++ "me/player/recently-played?limit=" ++ toString total)
          = .ok resp ∧ resp.statusCode = StatusOK))
    ∧ ((c.CurrentUserTopTracks total time).error = some e →
      (e.isValidation || e.isTransport || e.isUpstream || e.isJsonDecode) = true ∧
      (e.isValidation = true →
        (total ≤ 0 ∨ total > 50) ∨ (time ≠ "short" ∧ time ≠ "medium" ∧ time ≠ "long")) ∧
      (e.isTransport = true →
        ∃ m, c.httpGet (baseAddress ++ "me/top/tracks?time_range=" ++ time ++ "_term&limit=" ++ toString total)
          = .err m ∧ e = .transport m) ∧
      (e.isUpstream = true →
        ∃ resp, c.httpGet (baseAddress ++ "me/top/tracks?time_range=" ++ time ++ "_term&limit=" ++ toString total)
          = .ok resp ∧ resp.statusCode ≠ StatusOK ∧ e = decodeError resp.body) ∧
      (e.isJsonDecode = true →
        ∃ resp, c.httpGet (baseAddress ++ "me/top/tracks?time_range=" ++ time ++ "_term&limit=" ++ toString total)
          = .ok resp ∧ resp.statusCode = StatusOK))
    ∧ ((c.CurrentUserTopArtists total time).error = some e →
      (e.isValidation || e.isTransport || e.isUpstream || e.isJsonDecode) = true ∧
      (e.isValidation = true →
        (total ≤ 0 ∨ total > 50) ∨ (time ≠ "short" ∧ time ≠ "medium" ∧ time ≠ "long")) ∧
      (e.isTransport = true →
        ∃ m, c.httpGet (baseAddress ++ "me/top/artists?time_range=" ++ time ++ "_term&limit=" ++ toString total)
          = .err m ∧ e = .transport m) ∧
      (e.isUpstream = true →
        ∃ resp, c.httpGet (baseAddress ++ "me/top/artists?time_range=" ++ time ++ "_term&limit=" ++ toString total)
          = .ok resp ∧ resp.statusCode ≠ StatusOK ∧ e = decodeError resp.body) ∧
      (e.isJsonDecode = true →
        ∃ resp, c.httpGet (baseAddress ++ "me/top/artists?time_range=" ++ time ++ "_term&limit=" ++ toString total)
          = .ok resp ∧ resp.statusCode = StatusOK))
    ∧ ((c.GetAudioAnalysis id).error = some e →
      (e.isValidation || e.isTransport || e.isUpstream || e.isJsonDecode) = true ∧
      e.isValidation = false ∧
      (e.isTransport = true →
        ∃ m, c.httpGet (baseAddress ++ "audio-analysis/" ++ idString id)
          = .err m ∧ e = .transport m) ∧
      (e.isUpstream = true →
        ∃ resp, c.httpGet (baseAddress ++ "audio-analysis/" ++ idString id)
          = .ok resp ∧ resp.statusCode ≠ StatusOK ∧ e = decodeError resp.body) ∧
      (e.isJsonDecode = true →
        ∃ resp, c.httpGet (baseAddress ++ "audio-analysis/" ++ idString id)
          = .ok resp ∧ resp.statusCode = StatusOK)) := by
  refine ⟨?_, ?_, ?_, ?_⟩
  · intro he
    by_cases hv : total ≤ 0 ∨ total > 50
    · rw [recentTracks_invalid c total hv] at he
      simp only [Option.some.injEq] at he
      subst he
      refine ⟨rfl, fun _ => hv, fun hk => ?_, fun hk => ?_, fun hk => ?_⟩ <;>
        simp [GoError.isTransport, GoError.isUpstream, GoError.isJsonDecode] at hk
    · cases hgr : c.httpGet (baseAddress ++ "me/player/recently-played?limit=" ++ toString total) with
      | err m =>
        rw [recentTracks_transport c total m hv hgr] at he
        simp only [Option.some.injEq] at he
        subst he
        refine ⟨rfl, fun hk => ?_, fun _ => ⟨m, rfl, rfl⟩, fun hk => ?_, fun hk => ?_⟩ <;>
          simp [GoError.isValidation, GoError.isUpstream, GoError.isJsonDecode] at hk
      | ok resp =>
        by_cases hst : resp.statusCode = StatusOK
        · rw [recentTracks_okStatus c total resp hv hgr hst] at he
          cases hdec : decodePlayHistory resp.body with
          | error e0 =>
            rw [hdec] at he
            simp only [Option.some.injEq] at he
            subst he
            refine ⟨rfl, fun hk => ?_, fun hk => ?_, fun hk => ?_, fun _ => ⟨resp, rfl, hst⟩⟩ <;>
              simp [GoError.isValidation, GoError.isTransport, GoError.isUpstream] at hk
          | ok hh =>
            rw [hdec] at he
            simp at he
        · rw [recentTracks_badStatus c total resp hv hgr hst] at he
          simp only [Option.some.injEq] at he
          subst he
          refine ⟨rfl, fun hk => ?_, fun hk => ?_, fun _ => ⟨resp, rfl, hst, rfl⟩, fun hk => ?_⟩ <;>
            simp [decodeError, GoError.isValidation, GoError.isTransport, GoError.isJsonDecode] at hk
  · intro he
    by_cases hv : total ≤ 0 ∨ total > 50
    · rw [topTracks_invalidCount c total time hv] at he
      simp only [Option.some.injEq] at he
      subst he
      refine ⟨rfl, fun _ => Or.inl hv, fun hk => ?_, fun hk => ?_, fun hk => ?_⟩ <;>
        simp [GoError.isTransport, GoError.isUpstream, GoError.isJsonDecode] at hk
    · by_cases htv : time ≠ "short" ∧ time ≠ "medium" ∧ time ≠ "long"
      · rw [topTracks_invalidTime c total time hv htv] at he
        simp only [Option.some.injEq] at he
        subst he
        refine ⟨rfl, fun _ => Or.inr htv, fun hk => ?_, fun hk => ?_, fun hk => ?_⟩ <;>
          simp [GoError.isTransport, GoError.isUpstream, GoError.isJsonDecode] at hk
      · cases hgr : c.httpGet (baseAddress ++ "me/top/tracks?time_range=" ++ time ++ "_term&limit=" ++ toString total) with
        | err m =>
          rw [topTracks_transport c total time m hv htv hgr] at he
          simp only [Option.some.injEq] at he
          subst he
          refine ⟨rfl, fun hk => ?_, fun _ => ⟨m, rfl, rfl⟩, fun hk => ?_, fun hk => ?_⟩ <;>
            simp [GoError.isValidation, GoError.isUpstream, GoError.isJsonDecode] at hk
        | ok resp =>
          by_cases hst : resp.statusCode = StatusOK
          · rw [topTracks_okStatus c total time resp hv htv hgr hst] at he
            cases hdec : decodeTopTracks resp.body with
            | error e0 =>
              rw [hdec] at he
              simp only [Option.some.injEq] at he
              subst he
              refine ⟨rfl, fun hk => ?_, fun hk => ?_, fun hk => ?_, fun _ => ⟨resp, rfl, hst⟩⟩ <;>
                simp [GoError.isValidation, GoError.isTransport, GoError.isUpstream] at hk
            | ok tt =>
              rw [hdec] at he
              simp at he
          · rw [topTracks_badStatus c total time resp hv htv hgr hst] at he
            simp only [Option.some.injEq] at he
            subst he
            refine ⟨rfl, fun hk => ?_, fun hk => ?_, fun _ => ⟨resp, rfl, hst, rfl⟩, fun hk => ?_⟩ <;>
              simp [decodeError, GoError.isValidation, GoError.isTransport, GoError.isJsonDecode] at hk
  · intro he
    by_cases hv : total ≤ 0 ∨ total > 50
    · rw [topArtists_invalidCount c total time hv] at he
      simp only [Option.some.injEq] at he
      subst he
      refine ⟨rfl, fun _ => Or.inl hv, fun hk => ?_, fun hk => ?_, fun hk => ?_⟩ <;>
        simp [GoError.isTransport, GoError.isUpstream, GoError.isJsonDecode] at hk
    · by_cases htv : time ≠ "short" ∧ time ≠ "medium" ∧ time ≠ "long"
      · rw [topArtists_invalidTime c total time hv htv] at he
        simp only [Option.some.injEq] at he
        subst he
        refine ⟨rfl, fun _ => Or.inr htv, fun hk => ?_, fun hk => ?_, fun hk => ?_⟩ <;>
          simp [GoError.isTransport, GoError.isUpstream, GoError.isJsonDecode] at hk
      · cases hgr : c.httpGet (baseAddress ++ "me/top/artists?time_range=" ++ time ++ "_term&limit=" ++ toString total) with
        | err m =>
          rw [topArtists_transport c total time m hv htv hgr] at he
          simp only [Option.some.injEq] at he
          subst he
          refine ⟨rfl, fun hk => ?_, fun _ => ⟨m, rfl, rfl⟩, fun hk => ?_, fun hk => ?_⟩ <;>
            simp [GoError.isValidation, GoError.isUpstream, GoError.isJsonDecode] at hk
        | ok resp =>
          by_cases hst : resp.statusCode = StatusOK
          · rw [topArtists_okStatus c total time resp hv htv hgr hst] at he
            cases hdec : decodeTopArtists resp.body with
            | error e0 =>
              rw [hdec] at he
              simp only [Option.some.injEq] at he
              subst he
              refine ⟨rfl, fun hk => ?_, fun hk => ?_, fun hk => ?_, fun _ => ⟨resp, rfl, hst⟩⟩ <;>
                simp [GoError.isValidation, GoError.isTransport, GoError.isUpstream] at hk
            | ok tt =>
              rw [hdec] at he
              simp at he
          · rw [topArtists_badStatus c total time resp hv htv hgr hst] at he
            simp only [Option.some.injEq] at he
            subst he
            refine ⟨rfl, fun hk => ?_, fun hk => ?_, fun _ => ⟨resp, rfl, hst, rfl⟩, fun hk => ?_⟩ <;>
              simp [decodeError, GoError.isValidation, GoError.isTransport, GoError.isJsonDecode] at hk
  · intro he
    cases hgr : c.httpGet (baseAddress ++ "audio-analysis/" ++ idString id) with
    | err m =>
      rw [audioAnalysis_transport c id m hgr] at he
      simp only [Option.some.injEq] at he
      subst he
      refine ⟨rfl, rfl, fun _ => ⟨m, rfl, rfl⟩, fun hk => ?_, fun hk => ?_⟩ <;>
        simp [GoError.isUpstream, GoError.isJsonDecode] at hk
    | ok resp =>
      by_cases hst : resp.statusCode = StatusOK
      · rw [audioAnalysis_okStatus c id resp hgr hst] at he
        cases hdec : decodeAudioAnalysis resp.body with
        | error e0 =>
          rw [hdec] at he
          simp only [Option.some.injEq] at he
          subst he
          refine ⟨rfl, rfl, fun hk => ?_, fun hk => ?_, fun _ => ⟨resp, rfl, hst⟩⟩ <;>
            simp [GoError.isTransport, GoError.isUpstream] at hk
        | ok aa =>
          rw [hdec] at he
          simp at he
      · rw [audioAnalysis_badStatus c id resp hgr hst] at he
        simp only [Option.some.injEq] at he
        subst he
        refine ⟨rfl, rfl, fun hk => ?_, fun _ => ⟨resp, rfl, hst, rfl⟩, fun hk => ?_⟩ <;>
          simp [decodeError, GoError.isTransport, GoError.isJsonDecode] at hk

/-- Witness for the amended C5: the transport-failure client at total =
10 returns the transport error, which is of one of the four kinds. -/
theorem C5_error_kinds_witness :
    ((GoError.transport "connection refused").isValidation
      || (GoError.transport "connection refused").isTransport
      || (GoError.transport "connection refused").isUpstream
      || (GoError.transport "connection refused").isJsonDecode) = true ∧
    ((GoError.transport "connection refused").isValidation = true →
      (10 : Int) ≤ 0 ∨ (10 : Int) > 50) ∧
    ((GoError.transport "connection refused").isTransport = true →
      ∃ m, failClient.httpGet (baseAddress ++ "me/player/recently-played?limit=" ++ toString (10 : Int))
        = .err m ∧ GoError.transport "connection refused" = .transport m) ∧
    ((GoError.transport "connection refused").isUpstream = true →
      ∃ resp, failClient.httpGet (baseAddress ++ "me/player/recently-played?limit=" ++ toString (10 : Int))
        = .ok resp ∧ resp.statusCode ≠ StatusOK ∧
        GoError.transport "connection refused" = decodeError resp.body) ∧
    ((GoError.transport "connection refused").isJsonDecode = true →
      ∃ resp, failClient.httpGet (baseAddress ++ "me/player/recently-played?limit=" ++ toString (10 : Int))
        = .ok resp ∧ resp.statusCode = StatusOK) :=
  (C5_error_kinds failClient 10 "short" "abc" (.transport "connection refused")).1 rfl

/-- C6: each operation returns the first error encountered, in order:
an invalid count or time-range label yields that validation error with
no HTTP request issued (empty trace); a transport error is returned
before the status is checked (no decode event); for every operation a
non-OK status yields the upstream error before the success body is
decoded (no success-body-decode event). -/
theorem C6_first_error (c : Client) (total : Int) (time : String) (id : ID)
    (m : String) (resp : HTTPResponse) :
    ((total ≤ 0 ∨ total > 50) →
      (c.CurrentUserRecentTracks total).trace = [] ∧
      (c.CurrentUserRecentTracks total).error
        = some (.validation recentTracksCountMsg) ∧
      (c.CurrentUserTopTracks total time).trace = [] ∧
      (c.CurrentUserTopTracks total time).error
        = some (.validation topTracksCountMsg) ∧
      (c.CurrentUserTopArtists total time).trace = [] ∧
      (c.CurrentUserTopArtists total time).error
        = some (.validation topArtistsCountMsg))
    ∧ (1 ≤ total → total ≤ 50 →
        time ≠ "short" → time ≠ "medium" → time ≠ "long" →
      (c.CurrentUserTopTracks total time).trace = [] ∧
      (c.CurrentUserTopTracks total time).error
        = some (.validation topTracksTimeMsg) ∧
      (c.CurrentUserTopArtists total time).trace = [] ∧
      (c.CurrentUserTopArtists total time).error
        = some (.validation topArtistsTimeMsg))
    ∧ (1 ≤ total → total ≤ 50 →
      c.httpGet (baseAddress ++ "me/player/recently-played?limit=" ++ toString total)
        = .err m →
      c.CurrentUserRecentTracks total
        = ⟨[.httpGet (baseAddress ++ "me/player/recently-played?limit=" ++ toString total)],
           none, some (.transport m)⟩)
    ∧ (1 ≤ total → total ≤ 50 →
        (time = "short" ∨ time = "medium" ∨ time = "long") →
      (c.httpGet (baseAddress ++ "me/top/tracks?time_range=" ++ time ++ "_term&limit=" ++ toString total)
          = .err m →
        c.CurrentUserTopTracks total time
          = ⟨[.httpGet (baseAddress ++ "me/top/tracks?time_range=" ++ time ++ "_term&limit=" ++ toString total)],
             none, some (.transport m)⟩) ∧
      (c.httpGet (baseAddress ++ "me/top/artists?time_range=" ++ time ++ "_term&limit=" ++ toString total)
          = .err m →
        c.CurrentUserTopArtists total time
          = ⟨[.httpGet (baseAddress ++ "me/top/artists?time_range=" ++ time ++ "_term&limit=" ++ toString total)],
             none, some (.transport m)⟩))
    ∧ (c.httpGet (baseAddress ++ "audio-analysis/" ++ idString id) = .err m →
      c.GetAudioAnalysis id
        = ⟨[.httpGet (baseAddress ++ "audio-analysis/" ++ idString id)],
           none, some (.transport m)⟩)
    ∧ (1 ≤ total → total ≤ 50 →
      c.httpGet (baseAddress ++ "me/player/recently-played?limit=" ++ toString total)
        = .ok resp → resp.statusCode ≠ StatusOK →
      (c.CurrentUserRecentTracks total).trace
        = [.httpGet (baseAddress ++ "me/player/recently-played?limit=" ++ toString total),
           .decodeErrBody] ∧
      (c.CurrentUserRecentTracks total).error = some (decodeError resp.body))
    ∧ (1 ≤ total → total ≤ 50 →
        (time = "short" ∨ time = "medium" ∨ time = "long") →
      (c.httpGet (baseAddress ++ "me/top/tracks?time_range=" ++ time ++ "_term&limit=" ++ toString total)
          = .ok resp → resp.statusCode ≠ StatusOK →
        (c.CurrentUserTopTracks total time).trace
          = [.httpGet (baseAddress ++ "me/top/tracks?time_range=" ++ time ++ "_term&limit=" ++ toString total),
             .decodeErrBody] ∧
        (c.CurrentUserTopTracks total time).error = some (decodeError resp.body)) ∧
      (c.httpGet (baseAddress ++ "me/top/artists?time_range=" ++ time ++ "_term&limit=" ++ toString total)
          = .ok resp → resp.statusCode ≠ StatusOK →
        (c.CurrentUserTopArtists total time).trace
          = [.httpGet (baseAddress ++ "me/top/artists?time_range=" ++ time ++ "_term&limit=" ++ toString total),
             .decodeErrBody] ∧
        (c.CurrentUserTopArtists total time).error = some (decodeError resp.body)))
    ∧ (c.httpGet (baseAddress ++ "audio-analysis/" ++ idString id) = .ok resp →
        resp.statusCode ≠ StatusOK →
      (c.GetAudioAnalysis id).trace
        = [.httpGet (baseAddress ++ "audio-analysis/" ++ idString id), .decodeErrBody] ∧
      (c.GetAudioAnalysis id).error = some (decodeError resp.body)) := by
  refine ⟨?_, ?_, ?_, ?_, ?_, ?_, ?_, ?_⟩
  · intro hv
    rw [recentTracks_invalid c total hv, topTracks_invalidCount c total time hv,
      topArtists_invalidCount c total time hv]
    exact ⟨rfl, rfl, rfl, rfl, rfl, rfl⟩
  · intro h1 h2 t1 t2 t3
    rw [topTracks_invalidTime c total time (by omega) ⟨t1, t2, t3⟩,
      topArtists_invalidTime c total time (by omega) ⟨t1, t2, t3⟩]
    exact ⟨rfl, rfl, rfl, rfl⟩
  · intro h1 h2 hget
    exact recentTracks_transport c total m (by omega) hget
  · intro h1 h2 ht
    have ht2 : ¬(time ≠ "short" ∧ time ≠ "medium" ∧ time ≠ "long") := by
      rcases ht with h3 | h3 | h3 <;> simp [h3]
    exact ⟨topTracks_transport c total time m (by omega) ht2,
      topArtists_transport c total time m (by omega) ht2⟩
  · exact audioAnalysis_transport c id m
  · intro h1 h2 hget hs
    rw [recentTracks_badStatus c total resp (by omega) hget hs]
    exact ⟨rfl, rfl⟩
  · intro h1 h2 ht
    have ht2 : ¬(time ≠ "short" ∧ time ≠ "medium" ∧ time ≠ "long") := by
      rcases ht with h3 | h3 | h3 <;> simp [h3]
    constructor
    · intro hget hs
      rw [topTracks_badStatus c total time resp (by omega) ht2 hget hs]
      exact ⟨rfl, rfl⟩
    · intro hget hs
      rw [topArtists_badStatus c total time resp (by omega) ht2 hget hs]
      exact ⟨rfl, rfl⟩
  · intro hget hs
    rw [audioAnalysis_badStatus c id resp hget hs]
    exact ⟨rfl, rfl⟩

/-- Witness for C6: concrete runs at total = 0 (invalid count), total =
10 with label "year" (invalid time), the failing transport client, and
the 404 client for all four status-before-decode clauses. -/
theorem C6_first_error_witness :
    ((okClient.CurrentUserRecentTracks 0).trace = [] ∧
      (okClient.CurrentUserRecentTracks 0).error
        = some (.validation recentTracksCountMsg) ∧
      (okClient.CurrentUserTopTracks 0 "short").trace = [] ∧
      (okClient.CurrentUserTopTracks 0 "short").error
        = some (.validation topTracksCountMsg) ∧
      (okClient.CurrentUserTopArtists 0 "short").trace = [] ∧
      (okClient.CurrentUserTopArtists 0 "short").error
        = some (.validation topArtistsCountMsg)) ∧
    ((okClient.CurrentUserTopTracks 10 "year").trace = [] ∧
      (okClient.CurrentUserTopTracks 10 "year").error
        = some (.validation topTracksTimeMsg) ∧
      (okClient.CurrentUserTopArtists 10 "year").trace = [] ∧
      (okClient.CurrentUserTopArtists 10 "year").error
        = some (.validation topArtistsTimeMsg)) ∧
    (failClient.CurrentUserRecentTracks 10
      = ⟨[.httpGet (baseAddress ++ "me/player/recently-played?limit=" ++ toString (10 : Int))],
         none, some (.transport "connection refused")⟩) ∧
    (failClient.GetAudioAnalysis "abc"
      = ⟨[.httpGet (baseAddress ++ "audio-analysis/" ++ idString "abc")],
         none, some (.transport "connection refused")⟩) ∧
    ((notFoundClient.CurrentUserRecentTracks 10).trace
      = [.httpGet (baseAddress ++ "me/player/recently-played?limit=" ++ toString (10 : Int)),
         .decodeErrBody]) ∧
    ((notFoundClient.CurrentUserTopTracks 10 "short").trace
      = [.httpGet (baseAddress ++ "me/top/tracks?time_range=" ++ "short" ++ "_term&limit=" ++ toString (10 : Int)),
         .decodeErrBody]) ∧
    ((notFoundClient.CurrentUserTopArtists 10 "short").trace
      = [.httpGet (baseAddress ++ "me/top/artists?time_range=" ++ "short" ++ "_term&limit=" ++ toString (10 : Int)),
         .decodeErrBody]) ∧
    ((notFoundClient.GetAudioAnalysis "abc").trace
      = [.httpGet (baseAddress ++ "audio-analysis/" ++ idString "abc"), .decodeErrBody]) :=
  ⟨(C6_first_error okClient 0 "short" "abc" "m" ⟨200, .obj []⟩).1 (Or.inl (by decide)),
   (C6_first_error okClient 10 "year" "abc" "m" ⟨200, .obj []⟩).2.1
     (by decide) (by decide) (by decide) (by decide) (by decide),
   (C6_first_error failClient 10 "short" "abc" "connection refused" ⟨200, .obj []⟩).2.2.1
     (by decide) (by decide) rfl,
   (C6_first_error failClient 10 "short" "abc" "connection refused" ⟨200, .obj []⟩).2.2.2.2.1 rfl,
   ((C6_first_error notFoundClient 10 "short" "abc" "m"
       ⟨404, .obj [("error", .obj [("status", .num 404), ("message", .str "Not found.")])]⟩).2.2.2.2.2.1
     (by decide) (by decide) rfl (by decide)).1,
   (((C6_first_error notFoundClient 10 "short" "abc" "m"
       ⟨404, .obj [("error", .obj [("status", .num 404), ("message", .str "Not found.")])]⟩).2.2.2.2.2.2.1
     (by decide) (by decide) (Or.inl rfl)).1 rfl (by decide)).1,
   (((C6_first_error notFoundClient 10 "short" "abc" "m"
       ⟨404, .obj [("error", .obj [("status", .num 404), ("message", .str "Not found.")])]⟩).2.2.2.2.2.2.1
     (by decide) (by decide) (Or.inl rfl)).2 rfl (by decide)).1,
   ((C6_first_error notFoundClient 10 "short" "abc" "m"
       ⟨404, .obj [("error", .obj [("status", .num 404), ("message", .str "Not found.")])]⟩).2.2.2.2.2.2.2
     rfl (by decide)).1⟩


/-- C7: for every valid total in 1..50 and valid time label, the URL
passed to the HTTP GET is the fixed endpoint path with the documented
query parameters. -/
theorem C7_request_urls (c : Client) (total : Int) (time : String)
    (h1 : 1 ≤ total) (h2 : total ≤ 50)
    (ht : time = "short" ∨ time = "medium" ∨ time = "long") :
    (c.CurrentUserRecentTracks total).trace.head?
      = some (.httpGet (baseAddress ++ "me/player/recently-played?limit=" ++ toString total)) ∧
    (c.CurrentUserTopTracks total time).trace.head?
      = some (.httpGet (baseAddress ++ "me/top/tracks?time_range=" ++ time ++ "_term&limit=" ++ toString total)) ∧
    (c.CurrentUserTopArtists total time).trace.head?
      = some (.httpGet (baseAddress ++ "me/top/artists?time_range=" ++ time ++ "_term&limit=" ++ toString total)) := by
  have hv : ¬(total ≤ 0 ∨ total > 50) := by omega
  have ht2 : ¬(time ≠ "short" ∧ time ≠ "medium" ∧ time ≠ "long") := by
    rcases ht with h3 | h3 | h3 <;> simp [h3]
  refine ⟨?_, ?_, ?_⟩
  · cases hgr : c.httpGet (baseAddress ++ "me/player/recently-played?limit=" ++ toString total) with
    | err m => rw [recentTracks_transport c total m hv hgr]; rfl
    | ok resp =>
      by_cases hst : resp.statusCode = StatusOK
      · rw [recentTracks_okStatus c total resp hv hgr hst]
        cases decodePlayHistory resp.body <;> rfl
      · rw [recentTracks_badStatus c total resp hv hgr hst]; rfl
  · cases hgr : c.httpGet (baseAddress ++ "me/top/tracks?time_range=" ++ time ++ "_term&limit=" ++ toString total) with
    | err m => rw [topTracks_transport c total time m hv ht2 hgr]; rfl
    | ok resp =>
      by_cases hst : resp.statusCode = StatusOK
      · rw [topTracks_okStatus c total time resp hv ht2 hgr hst]
        cases decodeTopTracks resp.body <;> rfl
      · rw [topTracks_badStatus c total time resp hv ht2 hgr hst]; rfl
  · cases hgr : c.httpGet (baseAddress ++ "me/top/artists?time_range=" ++ time ++ "_term&limit=" ++ toString total) with
    | err m => rw [topArtists_transport c total time m hv ht2 hgr]; rfl
    | ok resp =>
      by_cases hst : resp.statusCode = StatusOK
      · rw [topArtists_okStatus c total time resp hv ht2 hgr hst]
        cases decodeTopArtists resp.body <;> rfl
      · rw [topArtists_badStatus c total time resp hv ht2 hgr hst]; rfl

/-- Witness for C7 at total = 7, time = "medium". -/
theorem C7_request_urls_witness :
    (okClient.CurrentUserRecentTracks 7).trace.head?
      = some (.httpGet (baseAddress ++ "me/player/recently-played?limit=" ++ toString (7 : Int))) ∧
    (okClient.CurrentUserTopTracks 7 "medium").trace.head?
      = some (.httpGet (baseAddress ++ "me/top/tracks?time_range=" ++ "medium" ++ "_term&limit=" ++ toString (7 : Int))) ∧
    (okClient.CurrentUserTopArtists 7 "medium").trace.head?
      = some (.httpGet (baseAddress ++ "me/top/artists?time_range=" ++ "medium" ++ "_term&limit=" ++ toString (7 : Int))) :=
  C7_request_urls okClient 7 "medium" (by decide) (by decide) (Or.inr (Or.inl rfl))

/-- C8: for every input that passes local validation, each exported
operation issues exactly one HTTP GET and, whenever a response is
received, performs exactly one decode of its body (and never more than
one on any path): a single synchronous request/decode round trip with
no retry. -/
theorem C8_single_round_trip (c : Client) (total : Int) (time : String) (id : ID) :
    (1 ≤ total → total ≤ 50 →
      countGets (c.CurrentUserRecentTracks total).trace = 1 ∧
      countDecodes (c.CurrentUserRecentTracks total).trace ≤ 1 ∧
      (∀ resp, c.httpGet (baseAddress ++ "me/player/recently-played?limit=" ++ toString total)
          = .ok resp →
        countDecodes (c.CurrentUserRecentTracks total).trace = 1))
    ∧ (1 ≤ total → total ≤ 50 →
        (time = "short" ∨ time = "medium" ∨ time = "long") →
      countGets (c.CurrentUserTopTracks total time).trace = 1 ∧
      countDecodes (c.CurrentUserTopTracks total time).trace ≤ 1 ∧
      (∀ resp, c.httpGet (baseAddress ++ "me/top/tracks?time_range=" ++ time ++ "_term&limit=" ++ toString total)
          = .ok resp →
        countDecodes (c.CurrentUserTopTracks total time).trace = 1))
    ∧ (1 ≤ total → total ≤ 50 →
        (time = "short" ∨ time = "medium" ∨ time = "long") →
      countGets (c.CurrentUserTopArtists total time).trace = 1 ∧
      countDecodes (c.CurrentUserTopArtists total time).trace ≤ 1 ∧
      (∀ resp, c.httpGet (baseAddress ++ "me/top/artists?time_range=" ++ time ++ "_term&limit=" ++ toString total)
          = .ok resp →
        countDecodes (c.CurrentUserTopArtists total time).trace = 1))
    ∧ (countGets (c.GetAudioAnalysis id).trace = 1 ∧
      countDecodes (c.GetAudioAnalysis id).trace ≤ 1 ∧
      (∀ resp, c.httpGet (baseAddress ++ "audio-analysis/" ++ idString id) = .ok resp →
        countDecodes (c.GetAudioAnalysis id).trace = 1)) := by
  refine ⟨?_, ?_, ?_, ?_⟩
  · intro h1 h2
    have hv : ¬(total ≤ 0 ∨ total > 50) := by omega
    cases hgr : c.httpGet (baseAddress ++ "me/player/recently-played?limit=" ++ toString total) with
    | err m =>
      rw [recentTracks_transport c total m hv hgr]
      exact ⟨by simp [countGets], by simp [countDecodes], fun resp hget => by cases hget⟩
    | ok resp0 =>
      by_cases hst : resp0.statusCode = StatusOK
      · rw [recentTracks_okStatus c total resp0 hv hgr hst]
        cases decodePlayHistory resp0.body with
        | error e0 =>
          exact ⟨by simp [countGets], by simp [countDecodes],
            fun resp hget => by simp [countDecodes]⟩
        | ok hh =>
          exact ⟨by simp [countGets], by simp [countDecodes],
            fun resp hget => by simp [countDecodes]⟩
      · rw [recentTracks_badStatus c total resp0 hv hgr hst]
        exact ⟨by simp [countGets], by simp [countDecodes],
          fun resp hget => by simp [countDecodes]⟩
  · intro h1 h2 ht
    have hv : ¬(total ≤ 0 ∨ total > 50) := by omega
    have ht2 : ¬(time ≠ "short" ∧ time ≠ "medium" ∧ time ≠ "long") := by
      rcases ht with h3 | h3 | h3 <;> simp [h3]
    cases hgr : c.httpGet (baseAddress ++ "me/top/tracks?time_range=" ++ time ++ "_term&limit=" ++ toString total) with
    | err m =>
      rw [topTracks_transport c total time m hv ht2 hgr]
      exact ⟨by simp [countGets], by simp [countDecodes], fun resp hget => by cases hget⟩
    | ok resp0 =>
      by_cases hst : resp0.statusCode = StatusOK
      · rw [topTracks_okStatus c total time resp0 hv ht2 hgr hst]
        cases decodeTopTracks resp0.body with
        | error e0 =>
          exact ⟨by simp [countGets], by simp [countDecodes],
            fun resp hget => by simp [countDecodes]⟩
        | ok tt =>
          exact ⟨by simp [countGets], by simp [countDecodes],
            fun resp hget => by simp [countDecodes]⟩
      · rw [topTracks_badStatus c total time resp0 hv ht2 hgr hst]
        exact ⟨by simp [countGets], by simp [countDecodes],
          fun resp hget => by simp [countDecodes]⟩
  · intro h1 h2 ht
    have hv : ¬(total ≤ 0 ∨ total > 50) := by omega
    have ht2 : ¬(time ≠ "short" ∧ time ≠ "medium" ∧ time ≠ "long") := by
      rcases ht with h3 | h3 | h3 <;> simp [h3]
    cases hgr : c.httpGet (baseAddress ++ "me/top/artists?time_range=" ++ time ++ "_term&limit=" ++ toString total) with
    | err m =>
      rw [topArtists_transport c total time m hv ht2 hgr]
      exact ⟨by simp [countGets], by simp [countDecodes], fun resp hget => by cases hget⟩
    | ok resp0 =>
      by_cases hst : resp0.statusCode = StatusOK
      · rw [topArtists_okStatus c total time resp0 hv ht2 hgr hst]
        cases decodeTopArtists resp0.body with
        | error e0 =>
          exact ⟨by simp [countGets], by simp [countDecodes],
            fun resp hget => by simp [countDecodes]⟩
        | ok tt =>
          exact ⟨by simp [countGets], by simp [countDecodes],
            fun resp hget => by simp [countDecodes]⟩
      · rw [topArtists_badStatus c total time resp0 hv ht2 hgr hst]
        exact ⟨by simp [countGets], by simp [countDecodes],
          fun resp hget => by simp [countDecodes]⟩
  · cases hgr : c.httpGet (baseAddress ++ "audio-analysis/" ++ idString id) with
    | err m =>
      rw [audioAnalysis_transport c id m hgr]
      exact ⟨by simp [countGets], by simp [countDecodes], fun resp hget => by cases hget⟩
    | ok resp0 =>
      by_cases hst : resp0.statusCode = StatusOK
      · rw [audioAnalysis_okStatus c id resp0 hgr hst]
        cases decodeAudioAnalysis resp0.body with
        | error e0 =>
          exact ⟨by simp [countGets], by simp [countDecodes],
            fun resp hget => by simp [countDecodes]⟩
        | ok aa =>
          exact ⟨by simp [countGets], by simp [countDecodes],
            fun resp hget => by simp [countDecodes]⟩
      · rw [audioAnalysis_badStatus c id resp0 hgr hst]
        exact ⟨by simp [countGets], by simp [countDecodes],
          fun resp hget => by simp [countDecodes]⟩

/-- Witness for C8 at total = 10, time = "short", id = "abc" with the
all-200 client. -/
theorem C8_single_round_trip_witness :
    (countGets (okClient.CurrentUserRecentTracks 10).trace = 1 ∧
      countDecodes (okClient.CurrentUserRecentTracks 10).trace = 1) ∧
    (countGets (okClient.CurrentUserTopTracks 10 "short").trace = 1 ∧
      countDecodes (okClient.CurrentUserTopTracks 10 "short").trace = 1) ∧
    (countGets (okClient.CurrentUserTopArtists 10 "short").trace = 1 ∧
      countDecodes (okClient.CurrentUserTopArtists 10 "short").trace = 1) ∧
    (countGets (okClient.GetAudioAnalysis "abc").trace = 1 ∧
      countDecodes (okClient.GetAudioAnalysis "abc").trace = 1) := by
  have h := C8_single_round_trip okClient 10 "short" "abc"
  exact ⟨⟨(h.1 (by decide) (by decide)).1,
      (h.1 (by decide) (by decide)).2.2 ⟨200, .obj []⟩ rfl⟩,
    ⟨(h.2.1 (by decide) (by decide) (Or.inl rfl)).1,
      (h.2.1 (by decide) (by decide) (Or.inl rfl)).2.2 ⟨200, .obj []⟩ rfl⟩,
    ⟨(h.2.2.1 (by decide) (by decide) (Or.inl rfl)).1,
      (h.2.2.1 (by decide) (by decide) (Or.inl rfl)).2.2 ⟨200, .obj []⟩ rfl⟩,
    ⟨h.2.2.2.1, h.2.2.2.2.2 ⟨200, .obj []⟩ rfl⟩⟩

/-- C10: GetAudioAnalysis performs no local validation of its id
argument: for every ID, including the empty string, it requests the URL
baseAddress ++ "audio-analysis/" ++ id, and a local validation error is
never returned by this operation. -/
theorem C10_no_id_validation (c : Client) (id : ID) :
    (c.GetAudioAnalysis id).trace.head?
      = some (.httpGet (baseAddress ++ "audio-analysis/" ++ idString id)) ∧
    countGets (c.GetAudioAnalysis id).trace = 1 ∧
    ∀ e, (c.GetAudioAnalysis id).error = some e → e.isValidation = false := by
  cases hgr : c.httpGet (baseAddress ++ "audio-analysis/" ++ idString id) with
  | err m =>
    rw [audioAnalysis_transport c id m hgr]
    refine ⟨rfl, by simp [countGets], fun e he => ?_⟩
    simp only [Option.some.injEq] at he
    subst he
    rfl
  | ok resp =>
    by_cases hst : resp.statusCode = StatusOK
    · rw [audioAnalysis_okStatus c id resp hgr hst]
      cases decodeAudioAnalysis resp.body with
      | error e0 =>
        refine ⟨rfl, by simp [countGets], fun e he => ?_⟩
        simp only [Option.some.injEq] at he
        subst he
        rfl
      | ok aa =>
        refine ⟨rfl, by simp [countGets], fun e he => ?_⟩
        simp at he
    · rw [audioAnalysis_badStatus c id resp hgr hst]
      refine ⟨rfl, by simp [countGets], fun e he => ?_⟩
      simp only [Option.some.injEq] at he
      subst he
      rfl

/-- Witness for C10 at the empty ID with the failing-transport
client. -/
theorem C10_no_id_validation_witness :
    (failClient.GetAudioAnalysis "").trace.head?
      = some (.httpGet (baseAddress ++ "audio-analysis/" ++ idString "")) ∧
    countGets (failClient.GetAudioAnalysis "").trace = 1 ∧
    (GoError.transport "connection refused").isValidation = false :=
  ⟨(C10_no_id_validation failClient "").1,
   (C10_no_id_validation failClient "").2.1,
   (C10_no_id_validation failClient "").2.2 (.transport "connection refused") rfl⟩

/-- C4 fails on the code: the upstream-documented field name for
TrackItem's Type field is "type", but the source tags it json:"track",
so a schema-conforming fixture's "type" value is not preserved: the
decoded Type field is the zero value "" instead of the fixture's
"track". -/
theorem C4_trackitem_type_tag :
    trackItemKey "Type" = "track" ∧
    trackItemKey "Type" ≠ "type" ∧
    jlookup [("name", JVal.str "Song"), ("type", JVal.str "track")] "type"
      = some (.str "track") ∧
    decodeTrackItem trackItemFixtureC4 = .ok { Name := "Song" } ∧
    ({ Name := "Song" } : TrackItem).«Type» = "" :=
  ⟨rfl, by decide, rfl, rfl, rfl⟩
